import Mathlib

/-!
Verification development for the GitLab workflow automation scripts
(`gitlab_workflow.py`) and the question-classification hook
(`user-prompt-submit.py`).

The Python code is shallowly embedded: pure string manipulation becomes
functions on `String` / `List Char`; the side-effecting workflow becomes
explicit state passing over an environment record that fixes the outcome
of every external call site (subprocess invocations and HTTP requests).
-/

/-! ## Python string primitives -/

/-- ASCII whitespace, as matched by Python's `\s` class and stripped by
`str.strip()` (restricted to the ASCII range, which is all the code relies
on): space, tab, newline, carriage return, vertical tab, form feed. -/
def isPySpace (c : Char) : Bool :=
  c = ' ' || c = '\t' || c = '\n' || c = '\r' || c = '\x0b' || c = '\x0c'

/-- Strip leading and trailing whitespace from a character list
(`str.strip()`). -/
def pyStripList (l : List Char) : List Char :=
  ((l.dropWhile isPySpace).reverse.dropWhile isPySpace).reverse

/-- Python `str.strip()`. -/
def pyStrip (s : String) : String :=
  ⟨pyStripList s.data⟩

/-- Python `str.lower()` restricted to ASCII input (all call sites feed it
ASCII-only data): uppercase ASCII letters are lowered, everything else is
unchanged.  `Char.toLower` implements exactly this ASCII mapping. -/
def pyLower (s : String) : String :=
  ⟨s.data.map Char.toLower⟩

/-! ## Commit-message prefix strippers

`generate_mr_summary` (gitlab_workflow.py:1183-1188) and
`generate_requirements_summary` (gitlab_workflow.py:1124-1128) each strip a
leading `type:` label from a commit subject, with different guards. -/

/-- Split a character list at the first colon: `some (before, after)` when a
colon occurs, `none` otherwise.  This models Python's
`':' in subject` test together with `subject.split(':', 1)`; when a colon is
present that split always yields exactly two parts. -/
def splitFirstColon : List Char → Option (List Char × List Char)
  | [] => none
  | c :: rest =>
    if c = ':' then some ([], rest)
    else
      match splitFirstColon rest with
      | some (a, b) => some (c :: a, b)
      | none => none

/-- The conventional-commit labels recognised by `generate_mr_summary`. -/
def convTypes : List String :=
  ["feat", "fix", "refactor", "docs", "style", "test", "chore"]

/-- The commit-subject stripper of `generate_mr_summary`
(gitlab_workflow.py:1183-1188): if the subject contains a colon and the
trimmed text before the first colon is one of `convTypes`, return the
trimmed text after that colon; otherwise return the subject unchanged. -/
def stripConvMR (subject : String) : String :=
  match splitFirstColon subject.data with
  | some (before, after) =>
    if convTypes.contains (pyStrip ⟨before⟩) then pyStrip ⟨after⟩ else subject
  | none => subject

/-- The commit-subject stripper of `generate_requirements_summary`
(gitlab_workflow.py:1124-1128): if the subject contains a colon, return the
trimmed text after the first colon — with no check of the label before the
colon; otherwise return the subject unchanged. -/
def stripConvReq (subject : String) : String :=
  match splitFirstColon subject.data with
  | some (_, after) => pyStrip ⟨after⟩
  | none => subject

/-- Does `stripConvMR` transform this subject?  True iff the subject has a
colon and the trimmed text before the first colon is a conventional label. -/
def mrStrips (subject : String) : Bool :=
  match splitFirstColon subject.data with
  | some (before, _) => convTypes.contains (pyStrip ⟨before⟩)
  | none => false

/-- Does `stripConvReq` transform this subject (that is, does the subject
contain a colon)? -/
def reqStrips (subject : String) : Bool :=
  (splitFirstColon subject.data).isSome

/-! ## Diff-stat parser

`get_branch_diff_stats` (gitlab_workflow.py:1074-1106) strips the
`git diff --shortstat` output and extracts three counts with
`re.search(r'(\d+) files? changed', ...)`, `(\d+) insertions?\(\+\)` and
`(\d+) deletions?\(-\)`, defaulting each to zero. -/

/-- The three counts returned by `get_branch_diff_stats`. -/
structure DiffStats where
  files_changed : Nat
  insertions : Nat
  deletions : Nat
deriving DecidableEq

/-- Value of a decimal digit string (`int(...)` on the captured group). -/
def digitsToNat (l : List Char) : Nat :=
  l.foldl (fun n c => 10 * n + (c.toNat - '0'.toNat)) 0

/-- Does the second list start with the first one? -/
def leadsWith : List Char → List Char → Bool
  | [], _ => true
  | _ :: _, [] => false
  | a :: as, b :: bs => a = b && leadsWith as bs

/-- Model of `re.search(r'(\d+)' ++ stem ++ 's?' ++ tail, ...)`: scan left to
right for a position carrying a non-empty maximal digit run followed by
`stem ++ tail` or `stem ++ "s" ++ tail`, and return the run's value.  The
digit run must be maximal because both continuations start with a non-digit
character, and the leftmost matching position always carries the full run. -/
def searchNum (stem tail : List Char) : List Char → Option Nat
  | [] => none
  | l@(_ :: rest) =>
    let ds := l.takeWhile Char.isDigit
    if ds ≠ [] &&
        (leadsWith (stem ++ 's' :: tail) (l.drop ds.length) ||
         leadsWith (stem ++ tail) (l.drop ds.length)) then
      some (digitsToNat ds)
    else
      searchNum stem tail rest

/-- Pure part of `get_branch_diff_stats` (gitlab_workflow.py:1088-1103):
strip the shortstat output; an empty result yields all-zero counts,
otherwise each count is the captured number of its pattern, defaulting to
zero when the pattern is absent. -/
def parse_shortstat (stdout : String) : DiffStats :=
  let output := pyStrip stdout
  if output = "" then ⟨0, 0, 0⟩
  else
    { files_changed := (searchNum " file".data " changed".data output.data).getD 0
      insertions := (searchNum " insertion".data "(+)".data output.data).getD 0
      deletions := (searchNum " deletion".data "(-)".data output.data).getD 0 }

/-! ## Branch-name validator

`validate_branch_name` (gitlab_workflow.py:378-391) is
`bool(re.match(r'^.+/\d+.*$', branch_name, re.IGNORECASE))`.  In Python,
`.` matches any character except `\n`, and `$` matches at the end of the
string or just before one final trailing newline; `re.IGNORECASE` is
irrelevant to this pattern.  The regex therefore accepts exactly the strings
that — after discarding one optional trailing newline — contain no newline
and have a `/` at some position ≥ 1 followed immediately by a digit. -/

/-- Is there an adjacent pair `'/', digit` anywhere in the list? -/
def pairScanSD : List Char → Bool
  | a :: b :: rest => (a = '/' && b.isDigit) || pairScanSD (b :: rest)
  | _ => false

/-- Discard one trailing newline, if present (the `$` anchor's allowance). -/
def stripTrailNL (s : String) : String :=
  if s.data.getLast? = some '\n' then ⟨s.data.dropLast⟩ else s

/-- Embedding of `validate_branch_name`:
`re.match(r'^.+/\d+.*$', branch_name)` succeeds iff, after discarding one
optional trailing newline, the string contains no newline, and some `/` at
position ≥ 1 is immediately followed by a digit (`.+` supplies the non-empty
newline-free part before that `/`, `\d+.*` the digit and the rest). -/
def validate_branch_name (branch_name : String) : Bool :=
  let body := (stripTrailNL branch_name).data
  body.all (fun c => c ≠ '\n') && pairScanSD (body.drop 1)

/-- Modelled from the spec's words (for comparison with the code, claim C5):
a name is valid iff it consists of some non-empty prefix, a literal `/`,
at least one digit, then anything. -/
def specValidBranchName (x : String) : Prop :=
  ∃ p d r : String, x = p ++ "/" ++ d ++ r ∧ p ≠ "" ∧ d ≠ "" ∧
    d.data.all Char.isDigit = true

/-! ## Title slug sanitizer

Phase 3-1 of `forced_workflow` (gitlab_workflow.py:1682-1689), repeated in
`full_workflow` (gitlab_workflow.py:1915-1923):

    sanitized_title = re.sub(r'[^a-zA-Z0-9\s-]', '', title)
    sanitized_title = re.sub(r'\s+', '-', sanitized_title.strip())
    sanitized_title = sanitized_title[:50].lower()
-/

/-- Characters kept by `re.sub(r'[^a-zA-Z0-9\s-]', '', ...)`. -/
def keepChar (c : Char) : Bool :=
  c.isAlphanum || isPySpace c || c = '-'

/-- Replace every maximal whitespace run by a single `-`
(`re.sub(r'\s+', '-', ...)`); the flag records whether we are inside a run
whose `-` has already been emitted. -/
def collapseWSAux : Bool → List Char → List Char
  | _, [] => []
  | inRun, c :: rest =>
    if isPySpace c then
      if inRun then collapseWSAux true rest
      else '-' :: collapseWSAux true rest
    else c :: collapseWSAux false rest

/-- Collapse whitespace runs to single hyphens. -/
def collapseWS (l : List Char) : List Char :=
  collapseWSAux false l

/-- The slug sanitization of `forced_workflow` phase 3-1: drop every
character outside `[a-zA-Z0-9\s-]`, strip, collapse whitespace runs to `-`,
truncate to 50 characters, lowercase. -/
def sanitize_title (title : String) : String :=
  let step1 := title.data.filter keepChar
  let step2 := collapseWS (pyStripList step1)
  ⟨(step2.take 50).map Char.toLower⟩

/-- Branch-name derivation of `forced_workflow` phase 3-1
(gitlab_workflow.py:1686-1689): if the slug degenerates to `""` or `"-"`,
use `issueCode.lower()/iid`, else append `-slug`. -/
def deriveBranchName (issueCode : String) (issueIid : Nat) (title : String) : String :=
  let slug := sanitize_title title
  if slug = "" || slug = "-" then
    pyLower issueCode ++ "/" ++ toString issueIid
  else
    pyLower issueCode ++ "/" ++ toString issueIid ++ "-" ++ slug

/-! ## Question classifier

`classify_question` (user-prompt-submit.py:16-136).  The regex engine is
abstracted: for a fixed input question, `re.search` is a deterministic
function of the pattern, so the classifier is modelled over an arbitrary
`search : String → Bool` giving each pattern's match outcome on the input.
Weights are decimal literals, modelled as rationals (the claim's properties
are interval bounds with wide margins, unaffected by binary rounding).
The formatted `reason` narration string is not modelled (no claim uses it). -/

/-- One matched signal record (pattern text, weight, category). -/
structure MatchedSignal where
  signal : String
  weight : ℚ
  ty : String
deriving DecidableEq

/-- Classification result (`type`, rounded `confidence`, `matchedSignals`,
`suggestedPipeline`, `pipelineMessage`). -/
structure QResult where
  ty : String
  confidence : ℚ
  matchedSignals : List MatchedSignal
  suggestedPipeline : List String
  pipelineMessage : String
deriving DecidableEq

/-- The exploration signal patterns with weights (user-prompt-submit.py:20-29). -/
def exploration_patterns : List (String × ℚ) :=
  [("(뭐|무엇|무슨).*(야|지|니|까)", 9/10), ("왜.*(야|지|니|까|해)", 9/10),
   ("어디.*(야|서|에)", 9/10), ("어떻게.*(돼|되|야)", 8/10), ("설명해줘", 9/10),
   ("알려줘", 7/10), ("확인해줘", 6/10), ("찾아줘", 6/10)]

/-- The decision signal patterns with weights (user-prompt-submit.py:31-39). -/
def decision_patterns : List (String × ℚ) :=
  [("(뭐|어떤|어느).*(나아|나을)", 95/100), ("(뭐|어떤|어느).*(좋아|좋을)", 9/10),
   ("괜찮[을나아]", 85/100), ("문제.*없[을나을까]", 85/100), ("해도.*될까", 9/10),
   ("할까.*말까", 95/100), ("\\bvs\\b|VS", 9/10)]

/-- The execution signal patterns with weights (user-prompt-submit.py:41-52). -/
def execution_patterns : List (String × ℚ) :=
  [("만들어줘", 95/100), ("수정해줘", 95/100), ("추가해줘", 95/100),
   ("삭제해줘", 95/100), ("구현해줘", 95/100), ("작성해줘", 9/10), ("고쳐줘", 9/10),
   ("바꿔줘", 9/10), ("적용해줘", 9/10), ("제거해줘", 9/10)]

/-- Every pattern string of the three tables. -/
def allPatterns : List String :=
  (exploration_patterns ++ decision_patterns ++ execution_patterns).map Prod.fst

/-- Category score: sum of the weights of the matched patterns of a table. -/
def scoreOf (search : String → Bool) (pats : List (String × ℚ)) : ℚ :=
  pats.foldl (fun acc pw => if search pw.1 then acc + pw.2 else acc) 0

/-- Matched-signal records contributed by one table, in table order. -/
def signalsOf (search : String → Bool) (pats : List (String × ℚ)) (ty : String) :
    List MatchedSignal :=
  (pats.filter (fun pw => search pw.1)).map (fun pw => ⟨pw.1, pw.2, ty⟩)

/-- Python `round(q, 2)`, modelled as decimal rounding to hundredths (the
half-up/half-even difference is immaterial to every value this code rounds). -/
def round2 (q : ℚ) : ℚ :=
  ((⌊q * 100 + 1/2⌋ : ℤ) : ℚ) / 100

/-- Embedding of `classify_question`: compute the three category scores, the
matched signals, the winning type (`max(scores, key=scores.get)` keeps the
first key in insertion order EXPLORATION, DECISION, EXECUTION on ties), the
confidence `round(min(max_score / 2, 1.0), 2)` with fallback `0.3`, and the
suggested pipeline for the winning type. -/
def classify_question (search : String → Bool) : QResult :=
  let eScore := scoreOf search exploration_patterns
  let dScore := scoreOf search decision_patterns
  let xScore := scoreOf search execution_patterns
  let signals :=
    signalsOf search exploration_patterns "EXPLORATION" ++
    signalsOf search decision_patterns "DECISION" ++
    signalsOf search execution_patterns "EXECUTION"
  let maxScore := max eScore (max dScore xScore)
  let ty :=
    if maxScore = 0 then "EXECUTION"
    else if dScore > eScore then (if xScore > dScore then "EXECUTION" else "DECISION")
    else (if xScore > eScore then "EXECUTION" else "EXPLORATION")
  let confidence := if maxScore = 0 then 3/10 else min (maxScore / 2) 1
  let pipeline :=
    if ty = "EXPLORATION" then ([], "탐색 질문 - AI 자유 응답")
    else if ty = "DECISION" then
      (["question-pipeline:intent-clarifier",
        "question-pipeline:ambiguity-scanner (light mode)"], "결정 질문 - 비교 분석 지원")
    else
      (["question-pipeline:ambiguity-scanner", "question-pipeline:intent-clarifier",
        "question-pipeline:question-normalizer",
        "question-pipeline:datatable-pattern-resolver",
        "question-pipeline:datatable-creator",
        "question-pipeline:pattern-drift-detector"], "실행 질문 - 전체 파이프라인 적용")
  { ty := ty
    confidence := round2 confidence
    matchedSignals := signals
    suggestedPipeline := pipeline.1
    pipelineMessage := pipeline.2 }

/-! ## Workflow state and result records (gitlab_workflow.py:33-65) -/

/-- `WorkflowState`: progress record used for rollback decisions. -/
structure WorkflowState where
  completed_steps : List String := []
  issue_iid : Option Nat := none
  branch_name : Option String := none
  original_branch : Option String := none
  stashed : Bool := false
  stashed_files : List String := []
  stash_ref : Option String := none
deriving DecidableEq

/-- `WorkflowState.mark`: append a completed-step marker. -/
def WorkflowState.mark (s : WorkflowState) (step : String) : WorkflowState :=
  { s with completed_steps := s.completed_steps ++ [step] }

/-- `WorkflowState.has`: membership test on the completed steps. -/
def WorkflowState.has (s : WorkflowState) (step : String) : Bool :=
  s.completed_steps.contains step

/-- `WorkflowResult`: outcome record of the forced workflow. -/
structure WorkflowResult where
  success : Bool
  issue_iid : Option Nat := none
  issue_title : Option String := none
  issue_url : Option String := none
  branch_name : Option String := none
  pushed : Bool := false
  ai_updated : Bool := false
  error : Option String := none
deriving DecidableEq

/-! ## Error message shapes

Exception texts raised by the embedded code.  Messages produced by library
exception classes (`CalledProcessError`, `JSONDecodeError`, `OSError`) are
modelled by their documented `str()` shapes with the variable details
abstracted; every claim only relies on the messages being non-empty. -/

/-- Shape of `str(subprocess.CalledProcessError)`. -/
def cpeMsg (cmd : String) : String :=
  "Command " ++ cmd ++ " returned non-zero exit status 1."

/-- `get_remote_name`'s wrap of a failing `git remote` call
(gitlab_workflow.py:1012). -/
def remoteFailMsg : String :=
  "Failed to get git remote: " ++ cpeMsg "git remote"

/-- `get_current_branch`'s wrap of a failing `git rev-parse` call
(gitlab_workflow.py:1025). -/
def curBranchFailMsg : String :=
  "Failed to get current branch: " ++ cpeMsg "git rev-parse --abbrev-ref HEAD"

/-- `_make_request`'s HTTP error text (gitlab_workflow.py:374-376). -/
def apiErrMsg (code : Nat) (body : String) : String :=
  "GitLab API Error (" ++ toString code ++ "): " ++ body

/-- Shape of `str(json.JSONDecodeError)`. -/
def jsonDecodeErrMsg (detail : String) : String :=
  detail ++ ": line 1 column 1 (char 0)"

/-- `FileNotFoundError` raised at gitlab_workflow.py:1554. -/
def fileNotFoundMsg (path : String) : String :=
  "JSON file not found: " ++ path

/-- `ValueError` raised at gitlab_workflow.py:1563. -/
def missingFieldMsg (field : String) : String :=
  "Required field missing in JSON: " ++ field

/-- Shape of `str(OSError)` raised by `save_issue_json`'s filesystem calls. -/
def saveErrMsgOf (detail : String) : String :=
  "[Errno 13] " ++ detail

/-- Python `str.split('\n')` on a character list: cut at every newline,
keeping empty pieces; the result always has at least one piece. -/
def splitLinesAux : List Char → List Char → List (List Char)
  | acc, [] => [acc.reverse]
  | acc, c :: rest =>
    if c = '\n' then acc.reverse :: splitLinesAux [] rest
    else splitLinesAux (c :: acc) rest

/-- Python `str.split('\n')`. -/
def pySplitLines (s : String) : List String :=
  (splitLinesAux [] s.data).map (fun l => ⟨l⟩)

/-- Embedding of `get_remote_name` (gitlab_workflow.py:983-1012): use the
configured remote when truthy; otherwise run `git remote` (outcome `cmdOk`,
output `stdout`) and pick `origin` or the first listed remote.  A failing
`git remote` call is re-raised as a plain `Exception` (`.error`), and
`stdout.strip().split('\n')` is never the empty list, so the
`"No git remote found"` raise is unreachable on a successful call. -/
def get_remote_name (configured : Option String) (cmdOk : Bool) (stdout : String) :
    Except String String :=
  if (configured.getD "") ≠ "" then .ok (configured.getD "")
  else if cmdOk then
    let remotes := pySplitLines (pyStrip stdout)
    if remotes.contains "origin" then .ok "origin"
    else
      match remotes with
      | r :: _ => .ok r
      | [] => .error "No git remote found"
  else .error remoteFailMsg

/-! ## Rollback (gitlab_workflow.py:1433-1517)

Each undo block wraps its git commands in `try/except
subprocess.CalledProcessError`; a failing git command is therefore only
logged.  The helper calls `get_remote_name` and `get_current_branch` raise
plain `Exception` on failure, which those blocks do NOT catch, so their
failures propagate out of `rollback` (modelled as `.error`).  The current
branch is threaded explicitly; per-call-site command outcomes live in
`RbEnv`. -/

/-- Outcomes of the external calls made by `rollback`, one field per call
site. -/
structure RbEnv where
  remoteCmdOk : Bool
  remoteStdout : String
  stashPushOk : Bool
  pushDeleteOk : Bool
  curBranchOk3 : Bool
  checkoutAwayOk : Bool
  branchDeleteOk : Bool
  curBranchOk4 : Bool
  checkoutOrigOk : Bool
  stashPopOk : Bool
deriving DecidableEq

/-- Undo actions attempted by `rollback`, in attempt order, each recording
whether it succeeded (`ok = false` means the failure was logged).
`deleteLocal`'s `switchTarget` is the branch checked out first when the
doomed branch was current; if that checkout fails the whole block is
abandoned with `ok = false`. -/
inductive RbEvent where
  | reStash (ok : Bool)
  | deleteRemote (remote : String) (branch : String) (ok : Bool)
  | deleteLocal (branch : String) (switchTarget : Option String) (ok : Bool)
  | switchBack (branch : String) (ok : Bool)
  | popStash (ok : Bool)
deriving DecidableEq

/-- Canonical position of each undo action in the fixed rollback order. -/
def rbRank : RbEvent → Nat
  | .reStash _ => 0
  | .deleteRemote _ _ _ => 1
  | .deleteLocal _ _ _ => 2
  | .switchBack _ _ => 3
  | .popStash _ => 4

/-- Rollback step a (gitlab_workflow.py:1446-1457): re-stash if the stash
had been popped; a failing `git stash push` is only logged. -/
def rbBlockReStash (state : WorkflowState) (env : RbEnv) : List RbEvent :=
  if state.has "stash_popped" then [.reStash env.stashPushOk] else []

/-- Rollback step b (gitlab_workflow.py:1459-1470): delete the remote branch
if pushed and a branch name is recorded.  The block catches only
`CalledProcessError`, so a failing `get_remote_name` raises (`.error`); a
failing `git push --delete` is only logged. -/
def rbBlockDeleteRemote (state : WorkflowState) (configuredRemote : Option String)
    (env : RbEnv) : Except String (List RbEvent) :=
  if state.has "pushed" && state.branch_name.getD "" ≠ "" then
    (get_remote_name configuredRemote env.remoteCmdOk env.remoteStdout).map
      (fun remote => [RbEvent.deleteRemote remote (state.branch_name.getD "") env.pushDeleteOk])
  else .ok []

/-- Rollback step c (gitlab_workflow.py:1472-1492): delete the local branch
if created and named, first switching to `original_branch or 'main'` when it
is checked out.  A failing `get_current_branch` raises (`.error`); a failing
checkout or delete is only logged. -/
def rbBlockDeleteLocal (state : WorkflowState) (env : RbEnv) (cur : String) :
    Except String (List RbEvent × String) :=
  let bn := state.branch_name.getD ""
  let orig := state.original_branch.getD ""
  if state.has "branch_created" && bn ≠ "" then
    if env.curBranchOk3 then
      if cur = bn then
        let target := if orig ≠ "" then orig else "main"
        if env.checkoutAwayOk then
          .ok ([RbEvent.deleteLocal bn (some target) env.branchDeleteOk], target)
        else
          .ok ([RbEvent.deleteLocal bn (some target) false], cur)
      else .ok ([RbEvent.deleteLocal bn none env.branchDeleteOk], cur)
    else .error curBranchFailMsg
  else .ok ([], cur)

/-- Rollback step d (gitlab_workflow.py:1494-1506): check the original
branch back out if recorded, non-empty, and not already current.  A failing
`get_current_branch` raises (`.error`); a failing checkout is only logged. -/
def rbBlockSwitchBack (state : WorkflowState) (env : RbEnv) (cur : String) :
    Except String (List RbEvent × String) :=
  let orig := state.original_branch.getD ""
  if state.has "switched_to_base" && orig ≠ "" then
    if env.curBranchOk4 then
      if cur ≠ orig then
        if env.checkoutOrigOk then .ok ([RbEvent.switchBack orig true], orig)
        else .ok ([RbEvent.switchBack orig false], cur)
      else .ok ([], cur)
    else .error curBranchFailMsg
  else .ok ([], cur)

/-- Rollback step e (gitlab_workflow.py:1508-1515): pop the stash if stashed
and not already popped; a failing `git stash pop` is only logged. -/
def rbBlockPopStash (state : WorkflowState) (env : RbEnv) : List RbEvent :=
  if state.has "stashed" && !(state.has "stash_popped") then
    [.popStash env.stashPopOk]
  else []

/-- Embedding of `rollback` (gitlab_workflow.py:1433-1517): run the five
undo blocks in their fixed order, threading the checked-out branch; produce
the attempted undo actions and the final current branch, or `.error` when an
uncaught helper exception escapes a block. -/
def rollback (state : WorkflowState) (configuredRemote : Option String)
    (env : RbEnv) (cur : String) : Except String (List RbEvent × String) :=
  let evs1 := rbBlockReStash state env
  match rbBlockDeleteRemote state configuredRemote env with
  | .error e => .error e
  | .ok evs2 =>
    match rbBlockDeleteLocal state env cur with
    | .error e => .error e
    | .ok (evs3, cur3) =>
      match rbBlockSwitchBack state env cur3 with
      | .error e => .error e
      | .ok (evs4, cur4) =>
        .ok (evs1 ++ evs2 ++ evs3 ++ evs4 ++ rbBlockPopStash state env, cur4)

/-- The branch checked out when `rollback` reaches its switch-back block:
the delete-local block may have switched away from the doomed branch. -/
def rbCurBeforeSwitchBack (state : WorkflowState) (env : RbEnv) (cur : String) :
    String :=
  let bn := state.branch_name.getD ""
  let orig := state.original_branch.getD ""
  if state.has "branch_created" && bn ≠ "" then
    if env.curBranchOk3 then
      if cur = bn then
        if env.checkoutAwayOk then (if orig ≠ "" then orig else "main") else cur
      else cur
    else cur
  else cur

/-- The helper lookups `rollback` relies on all succeed: the remote name is
resolvable (configured, or `git remote` exits cleanly) and both
`get_current_branch` calls exit cleanly. -/
def rbHelpersOk (configuredRemote : Option String) (env : RbEnv) : Prop :=
  ((configuredRemote.getD "") ≠ "" ∨ env.remoteCmdOk = true) ∧
    env.curBranchOk3 = true ∧ env.curBranchOk4 = true

/-! ## Forced workflow (gitlab_workflow.py:1519-1819)

`forced_workflow` is embedded as `runPhases` (the body of the `try` block,
threading the `WorkflowState` and the checked-out branch through every
external call, with one outcome field per call site) followed by
`forced_workflow` (the `except` handler: run `rollback` on the state at the
raise point and return the failure result — unless `rollback` itself
raises, in which case the exception propagates). -/

/-- Outcomes of every external interaction of one `forced_workflow` run,
one field per call site, plus the data those calls return. -/
structure Env where
  rb : RbEnv
  jsonFileExists : Bool
  jsonParseOk : Bool
  jsonErrDetail : String
  hasIssueCode : Bool
  hasTitle : Bool
  issueCode : String
  title : String
  envBaseBranch : Option String
  gitRepoOk : Bool
  configuredRemote : Option String
  remoteCmdOk0 : Bool
  remoteStdout0 : String
  remoteBaseOk : Bool
  createIssueOk : Bool
  apiCode : Nat
  apiBody : String
  issueIid : Nat
  issueUrl : String
  porcelainOk : Bool
  porcelainEmpty : Bool
  dirtyOk : Bool
  dirtyFiles : List String
  stashPushOk : Bool
  curBranchOk : Bool
  checkoutBaseOk : Bool
  pullOk : Bool
  checkoutNewOk : Bool
  pushOk : Bool
  stashPopOk : Bool
  updateIssueOk : Bool
  updApiCode : Nat
  updApiBody : String
  issueDirConfigured : Bool
  saveOk : Bool
  saveErrDetail : String
  initialBranch : String
deriving DecidableEq

/-- Outcome of the `try` body: either the success result or the raised
message, each with the `WorkflowState` and checked-out branch at that
point. -/
inductive PhasesOut where
  | success (res : WorkflowResult) (st : WorkflowState) (cur : String)
  | failure (msg : String) (st : WorkflowState) (cur : String)
deriving DecidableEq

/-- Phase 2-1/2-2 of `forced_workflow` (gitlab_workflow.py:1626-1651): if
the status check reports a dirty tree (a failing `git status` counts as
dirty, gitlab_workflow.py:479-480), collect the dirty files (a failing
status here yields `[]`, gitlab_workflow.py:502-503) and force-stash; the
state is mutated only after the stash command succeeds. -/
def runStash (env : Env) (st2 : WorkflowState) : Except String WorkflowState :=
  let isClean := env.porcelainOk && env.porcelainEmpty
  if !isClean then
    let dirty := if env.dirtyOk then env.dirtyFiles else []
    if env.stashPushOk then
      .ok (({ st2 with stashed := true, stashed_files := dirty }).mark "stashed")
    else .error (cpeMsg "git stash push")
  else .ok ({ st2 with stashed := false })

/-- Phase 5 of `forced_workflow` (gitlab_workflow.py:1719-1728): pop the
stash onto the new branch when changes had been stashed; the marker is
appended only after the pop succeeds. -/
def runStashPop (env : Env) (st9 : WorkflowState) : Except String WorkflowState :=
  if st9.stashed then
    if env.stashPopOk then .ok (st9.mark "stash_popped")
    else .error (cpeMsg "git stash pop")
  else .ok st9

/-- Phases 5 through 7 of `forced_workflow` (gitlab_workflow.py:1716-1798),
from the post-push state: pop the stash, update the issue with a
requirements summary when stashed changes exist, save metadata (both
guarded), and build the success result. -/
def runFinal (env : Env) (bname : String) (st9 : WorkflowState) (cur2 : String) :
    PhasesOut :=
  match runStashPop env st9 with
  | .error e => .failure e st9 cur2
  | .ok st10 =>
    let aiUpdated := st10.stashed && !st10.stashed_files.isEmpty
    if aiUpdated ∧ ¬ env.updateIssueOk then
      .failure (apiErrMsg env.updApiCode env.updApiBody) st10 cur2 else
    if env.issueDirConfigured ∧ ¬ env.saveOk then
      .failure (saveErrMsgOf env.saveErrDetail) st10 cur2 else
    .success
      { success := true, issue_iid := some env.issueIid, issue_title := some env.title,
        issue_url := some env.issueUrl, branch_name := some bname, pushed := true,
        ai_updated := aiUpdated } st10 cur2

/-- Phases 2-3 through 7 of `forced_workflow` (gitlab_workflow.py:1653-1798),
continuing from the post-stash state: record the original branch, switch to
base and pull, derive and assign the branch name (gitlab_workflow.py:1691)
before `git checkout -b` runs and `branch_created` is marked
(gitlab_workflow.py:1700), push, pop the stash, update the issue when
stashed changes exist, save metadata, and build the success result. -/
def runPhasesTail (env : Env) (base : String) (st3 : WorkflowState)
    (cur0 : String) : PhasesOut :=
  if ¬ env.curBranchOk then .failure curBranchFailMsg st3 cur0 else
  let st4 := { st3 with original_branch := some cur0 }
  if ¬ env.checkoutBaseOk then .failure (cpeMsg "git checkout") st4 cur0 else
  let cur1 := base
  let st5 := st4.mark "switched_to_base"
  if ¬ env.pullOk then .failure (cpeMsg "git pull") st5 cur1 else
  let st6 := st5.mark "pulled_latest"
  let bname := deriveBranchName env.issueCode env.issueIid env.title
  let st7 := { st6 with branch_name := some bname }
  if ¬ env.checkoutNewOk then .failure (cpeMsg "git checkout -b") st7 cur1 else
  let cur2 := bname
  let st8 := st7.mark "branch_created"
  if ¬ env.pushOk then .failure (cpeMsg "git push") st8 cur2 else
  runFinal env bname (st8.mark "pushed") cur2

/-- The state after phase 0 of `forced_workflow` (gitlab_workflow.py:1560):
the issue JSON has been loaded and validated. -/
def st1W : WorkflowState := ({} : WorkflowState).mark "json_loaded"

/-- The state after phase 1 of `forced_workflow` (gitlab_workflow.py:1618):
the tracking issue has been created and its iid recorded. -/
def st2W (env : Env) : WorkflowState :=
  ({ st1W with issue_iid := some env.issueIid }).mark "issue_created"

/-- The base branch resolution of `forced_workflow`
(gitlab_workflow.py:1555): the argument when given and non-empty, else the
`GITLAB_BASE_BRANCH` environment value, else `"main"`. -/
def baseOf (env : Env) (baseArg : Option String) : String :=
  match baseArg with
  | some b => if b = "" then env.envBaseBranch.getD "main" else b
  | none => env.envBaseBranch.getD "main"

/-- Embedding of the `try` body of `forced_workflow`
(gitlab_workflow.py:1546-1798): phase 0 validation, issue creation, then
the dirty handling of `runStash` and the remaining phases of
`runPhasesTail`. -/
def runPhases (env : Env) (path : String) (baseArg : Option String) : PhasesOut :=
  if ¬ env.jsonFileExists then
    .failure (fileNotFoundMsg path) {} env.initialBranch else
  if ¬ env.jsonParseOk then
    .failure (jsonDecodeErrMsg env.jsonErrDetail) {} env.initialBranch else
  if ¬ env.hasIssueCode then
    .failure (missingFieldMsg "issueCode") {} env.initialBranch else
  if ¬ env.hasTitle then
    .failure (missingFieldMsg "title") {} env.initialBranch else
  if ¬ env.gitRepoOk then
    .failure "Not in a git repository" st1W env.initialBranch else
  match get_remote_name env.configuredRemote env.remoteCmdOk0 env.remoteStdout0 with
  | .error e => .failure e st1W env.initialBranch
  | .ok remote =>
  if ¬ env.remoteBaseOk then
    .failure ("Remote branch not found: " ++ remote ++ "/" ++ baseOf env baseArg)
      st1W env.initialBranch else
  if ¬ env.createIssueOk then
    .failure (apiErrMsg env.apiCode env.apiBody) st1W env.initialBranch else
  match runStash env (st2W env) with
  | .error e => .failure e (st2W env) env.initialBranch
  | .ok st3 => runPhasesTail env (baseOf env baseArg) st3 env.initialBranch

/-- Embedding of `forced_workflow` (gitlab_workflow.py:1519-1819): run the
phases; on success return the success result; on a raise run `rollback` on
the state at the raise point and return the failure result with the raised
message and the recorded issue iid — unless `rollback` itself raises, in
which case that exception propagates out (`.error`). -/
def forced_workflow (env : Env) (path : String) (baseArg : Option String) :
    Except String WorkflowResult :=
  match runPhases env path baseArg with
  | .success res _ _ => .ok res
  | .failure msg st cur =>
    match rollback st env.configuredRemote env.rb cur with
    | .ok _ => .ok { success := false, issue_iid := st.issue_iid, error := some msg }
    | .error e => .error e

/-- The state `forced_workflow` hands to `rollback`, when it raises. -/
def stateHanded (env : Env) (path : String) (baseArg : Option String) :
    Option WorkflowState :=
  match runPhases env path baseArg with
  | .failure _ st _ => some st
  | .success _ _ _ => none

/-- Did this run get past phase 1 (the tracking issue was created)? -/
def issueCreated (env : Env) : Prop :=
  env.jsonFileExists = true ∧ env.jsonParseOk = true ∧ env.hasIssueCode = true ∧
  env.hasTitle = true ∧ env.gitRepoOk = true ∧
  ((env.configuredRemote.getD "") ≠ "" ∨ env.remoteCmdOk0 = true) ∧
  env.remoteBaseOk = true ∧ env.createIssueOk = true

/-! ## Concrete scenarios used as witnesses and counterexamples -/

/-- A rollback call-outcome record where every external call succeeds. -/
def rbAllOk : RbEnv :=
  { remoteCmdOk := true, remoteStdout := "origin", stashPushOk := true,
    pushDeleteOk := true, curBranchOk3 := true, checkoutAwayOk := true,
    branchDeleteOk := true, curBranchOk4 := true, checkoutOrigOk := true,
    stashPopOk := true }

/-- A run environment where every external interaction succeeds, the
working tree is clean and no metadata directory is configured. -/
def envBase : Env :=
  { rb := rbAllOk, jsonFileExists := true, jsonParseOk := true,
    jsonErrDetail := "Expecting value", hasIssueCode := true, hasTitle := true,
    issueCode := "VTM-1", title := "Add logout", envBaseBranch := none,
    gitRepoOk := true, configuredRemote := some "origin", remoteCmdOk0 := true,
    remoteStdout0 := "origin", remoteBaseOk := true, createIssueOk := true,
    apiCode := 422, apiBody := "title is missing", issueIid := 7,
    issueUrl := "https://gitlab.example/i/7", porcelainOk := true,
    porcelainEmpty := true, dirtyOk := true, dirtyFiles := [],
    stashPushOk := true, curBranchOk := true, checkoutBaseOk := true,
    pullOk := true, checkoutNewOk := true, pushOk := true, stashPopOk := true,
    updateIssueOk := true, updApiCode := 500, updApiBody := "server error",
    issueDirConfigured := false, saveOk := true,
    saveErrDetail := "Permission denied", initialBranch := "dev" }

/-- Scenario refuting C2's unconditional return: dirty tree, the stash pop
of phase 5 fails, and during rollback the `git remote` lookup fails (with no
configured remote), so `rollback` raises out of the handler. -/
def envC2 : Env :=
  { envBase with
    porcelainEmpty := false,
    dirtyFiles := ["a.py"],
    stashPopOk := false,
    configuredRemote := none,
    rb := { rbAllOk with remoteCmdOk := false } }

/-- Scenario refuting C3's iff: `git checkout -b` fails after `branch_name`
was assigned but before `branch_created` is marked. -/
def envC3 : Env :=
  { envBase with checkoutNewOk := false }

/-- Scenario refuting C4: every phase through phase 8 succeeds and only the
metadata write of `save_issue_json` fails. -/
def envC4 : Env :=
  { envBase with
    porcelainEmpty := false,
    dirtyFiles := ["a.py"],
    issueDirConfigured := true,
    saveOk := false }

/-- Scenario witnessing C3's forward direction at a raise point where
`branch_created` is marked: `git push` fails right after the branch was
created. -/
def envC3b : Env :=
  { envBase with pushOk := false }

/-- The state `forced_workflow` hands to `rollback` under `envC3b`: the
branch was created and named, and the push failure raised. -/
def stC3b : WorkflowState :=
  { completed_steps := ["json_loaded", "issue_created", "switched_to_base",
      "pulled_latest", "branch_created"],
    issue_iid := some 7, branch_name := some "vtm-1/7-add-logout",
    original_branch := some "dev" }

/-- A state recording a pushed branch, as `rollback` receives after a
failure past phase 4. -/
def stC1 : WorkflowState :=
  { completed_steps := ["json_loaded", "issue_created", "switched_to_base",
      "pulled_latest", "branch_created", "pushed"],
    issue_iid := some 7, branch_name := some "vtm-1/7-add-logout",
    original_branch := some "dev" }

/-- Rollback call outcomes where the `git remote` lookup fails. -/
def rbC1 : RbEnv :=
  { rbAllOk with remoteCmdOk := false }

/-! ## Character and list toolkit lemmas -/

theorem uint32_le_toNat (a b : UInt32) : a ≤ b ↔ a.toNat ≤ b.toNat := by
  rw [UInt32.le_def, BitVec.le_def]
  rfl

theorem char_le_toNat (a b : Char) : a ≤ b ↔ a.toNat ≤ b.toNat := by
  rw [Char.le_def, UInt32.le_def, BitVec.le_def]
  rfl

theorem char_toNat_ofNat_valid (n : Nat) (h : n.isValidChar) :
    (Char.ofNat n).toNat = n := by
  simp [Char.ofNat, h, Char.ofNatAux, Char.toNat, UInt32.toNat]

theorem toLower_toNat_of_upper (c : Char) (h1 : 65 ≤ c.toNat) (h2 : c.toNat ≤ 90) :
    97 ≤ c.toLower.toNat ∧ c.toLower.toNat ≤ 122 := by
  have hv : (c.toNat + 32).isValidChar := by
    left
    omega
  unfold Char.toLower
  rw [if_pos ⟨h1, h2⟩, char_toNat_ofNat_valid _ hv]
  omega

theorem toLower_eq_self_of_not_upper (c : Char)
    (h : ¬ (65 ≤ c.toNat ∧ c.toNat ≤ 90)) : c.toLower = c := by
  unfold Char.toLower
  rw [if_neg h]

theorem isUpper_toNat (c : Char) (h : c.isUpper = true) :
    65 ≤ c.toNat ∧ c.toNat ≤ 90 := by
  unfold Char.isUpper at h
  rw [Bool.and_eq_true, decide_eq_true_iff, decide_eq_true_iff] at h
  obtain ⟨h1, h2⟩ := h
  rw [ge_iff_le, uint32_le_toNat] at h1
  rw [uint32_le_toNat] at h2
  exact ⟨by simpa using h1, by simpa using h2⟩

theorem isLower_toNat (c : Char) (h : c.isLower = true) :
    97 ≤ c.toNat ∧ c.toNat ≤ 122 := by
  unfold Char.isLower at h
  rw [Bool.and_eq_true, decide_eq_true_iff, decide_eq_true_iff] at h
  obtain ⟨h1, h2⟩ := h
  rw [ge_iff_le, uint32_le_toNat] at h1
  rw [uint32_le_toNat] at h2
  exact ⟨by simpa using h1, by simpa using h2⟩

theorem isDigit_toNat (c : Char) (h : c.isDigit = true) :
    48 ≤ c.toNat ∧ c.toNat ≤ 57 := by
  unfold Char.isDigit at h
  rw [Bool.and_eq_true, decide_eq_true_iff, decide_eq_true_iff] at h
  obtain ⟨h1, h2⟩ := h
  rw [ge_iff_le, uint32_le_toNat] at h1
  rw [uint32_le_toNat] at h2
  exact ⟨by simpa using h1, by simpa using h2⟩

theorem dropWhile_subset_self (p : Char → Bool) (l : List Char) :
    l.dropWhile p ⊆ l := by
  induction l with
  | nil => simp
  | cons a t ih =>
    rw [List.dropWhile]
    by_cases h : p a
    · simp only [h]
      exact fun c hc => List.mem_cons_of_mem _ (ih hc)
    · simp only [Bool.not_eq_true] at h
      simp [h]

theorem pyStripList_subset (l : List Char) : pyStripList l ⊆ l := by
  intro c hc
  unfold pyStripList at hc
  rw [List.mem_reverse] at hc
  have h2 := dropWhile_subset_self isPySpace _ hc
  rw [List.mem_reverse] at h2
  exact dropWhile_subset_self isPySpace _ h2

theorem collapseWSAux_cons_space {a : Char} (b : Bool) (t : List Char)
    (ha : isPySpace a = true) :
    collapseWSAux b (a :: t) =
      if b then collapseWSAux true t else '-' :: collapseWSAux true t := by
  simp [collapseWSAux, ha]

theorem collapseWSAux_cons_nospace {a : Char} (b : Bool) (t : List Char)
    (ha : isPySpace a = false) :
    collapseWSAux b (a :: t) = a :: collapseWSAux false t := by
  simp [collapseWSAux, ha]

theorem mem_collapseWSAux {c : Char} :
    ∀ (b : Bool) (l : List Char), c ∈ collapseWSAux b l →
      c = '-' ∨ (c ∈ l ∧ isPySpace c = false) := by
  intro b l
  induction l generalizing b with
  | nil => simp [collapseWSAux]
  | cons a t ih =>
    intro h
    by_cases ha : isPySpace a
    · rw [collapseWSAux_cons_space b t ha] at h
      have hrec : c = '-' ∨ c ∈ collapseWSAux true t := by
        cases b with
        | true => exact Or.inr (by simpa using h)
        | false => simpa using List.mem_cons.mp (by simpa using h)
      rcases hrec with h1 | h1
      · exact Or.inl h1
      · rcases ih true h1 with h2 | ⟨h2, h3⟩
        · exact Or.inl h2
        · exact Or.inr ⟨List.mem_cons_of_mem _ h2, h3⟩
    · rw [collapseWSAux_cons_nospace b t (by simpa using ha)] at h
      rcases List.mem_cons.mp h with h1 | h1
      · subst h1
        exact Or.inr ⟨List.mem_cons_self _ _, by simpa using ha⟩
      · rcases ih false h1 with h2 | ⟨h2, h3⟩
        · exact Or.inl h2
        · exact Or.inr ⟨List.mem_cons_of_mem _ h2, h3⟩

theorem keepChar_cases (c : Char) (hk : keepChar c = true) (hs : isPySpace c = false) :
    c.isUpper = true ∨ c.isLower = true ∨ c.isDigit = true ∨ c = '-' := by
  unfold keepChar Char.isAlphanum Char.isAlpha at hk
  rw [hs] at hk
  simp only [Bool.or_eq_true, decide_eq_true_iff, Bool.false_eq_true, or_false,
    false_or] at hk
  tauto

theorem toLower_slugChar (c : Char) (hk : keepChar c = true)
    (hs : isPySpace c = false) :
    ('a' ≤ c.toLower ∧ c.toLower ≤ 'z') ∨
    ('0' ≤ c.toLower ∧ c.toLower ≤ '9') ∨ c.toLower = '-' := by
  rcases keepChar_cases c hk hs with h | h | h | h
  · obtain ⟨h1, h2⟩ := isUpper_toNat c h
    obtain ⟨g1, g2⟩ := toLower_toNat_of_upper c h1 h2
    left
    exact ⟨by rw [char_le_toNat]; exact g1, by rw [char_le_toNat]; exact g2⟩
  · obtain ⟨h1, h2⟩ := isLower_toNat c h
    rw [toLower_eq_self_of_not_upper c (by omega)]
    left
    exact ⟨by rw [char_le_toNat]; exact h1, by rw [char_le_toNat]; exact h2⟩
  · obtain ⟨h1, h2⟩ := isDigit_toNat c h
    rw [toLower_eq_self_of_not_upper c (by omega)]
    right
    left
    exact ⟨by rw [char_le_toNat]; exact h1, by rw [char_le_toNat]; exact h2⟩
  · subst h
    right
    right
    decide

/-- Claim C6, amended: `sanitize_title` is deterministic (it is a pure
function of the title), always yields a string of length at most 50 whose
characters all lie in `[a-z0-9-]`.  (The original claim's "never starts or
ends with a dangling `-`" part is refuted by `sanitize_title_dangling_cex`:
hyphens of the title itself survive at either end.) -/
theorem sanitize_title_charset_length : ∀ t : String,
    (sanitize_title t).length ≤ 50 ∧
    ∀ c ∈ (sanitize_title t).data,
      ('a' ≤ c ∧ c ≤ 'z') ∨ ('0' ≤ c ∧ c ≤ '9') ∨ c = '-' := by
  intro t
  constructor
  · show (((collapseWS (pyStripList (t.data.filter keepChar))).take 50).map
      Char.toLower).length ≤ 50
    rw [List.length_map, List.length_take]
    exact Nat.min_le_left _ _
  · intro c hc
    have hc' : c ∈ ((collapseWS (pyStripList (t.data.filter keepChar))).take 50).map
        Char.toLower := hc
    rw [List.mem_map] at hc'
    obtain ⟨c₀, hc₀, rfl⟩ := hc'
    have hc₁ : c₀ ∈ collapseWS (pyStripList (t.data.filter keepChar)) :=
      List.take_subset _ _ hc₀
    rcases mem_collapseWSAux false _ hc₁ with h | ⟨h, hsp⟩
    · subst h
      right
      right
      decide
    · have hk : keepChar c₀ = true := List.of_mem_filter (pyStripList_subset _ h)
      exact toLower_slugChar c₀ hk hsp

/-- Claim C6, counterexample: the title `"-abc"` sanitizes to itself, a slug
that starts with the separator `-`, refuting "never starts or ends with a
dangling separator". -/
theorem sanitize_title_dangling_cex :
    sanitize_title "-abc" = "-abc" ∧
    (sanitize_title "-abc").data.head? = some '-' := by
  exact ⟨by decide, by decide⟩

/-- Witness for `sanitize_title_charset_length` at a concrete title. -/
theorem sanitize_title_charset_length_witness :
    (sanitize_title "My Title!").length ≤ 50 ∧
    (('a' ≤ 'm' ∧ 'm' ≤ 'z') ∨ ('0' ≤ 'm' ∧ 'm' ≤ '9') ∨ 'm' = '-') :=
  ⟨(sanitize_title_charset_length "My Title!").1,
   (sanitize_title_charset_length "My Title!").2 'm' (by decide)⟩

theorem splitFirstColon_append (l₁ l₂ : List Char) (h : ∀ c ∈ l₁, c ≠ ':') :
    splitFirstColon (l₁ ++ ':' :: l₂) = some (l₁, l₂) := by
  induction l₁ with
  | nil => simp [splitFirstColon]
  | cons a t ih =>
    have ha : a ≠ ':' := h a (List.mem_cons_self _ _)
    rw [List.cons_append]
    unfold splitFirstColon
    rw [if_neg ha, ih (fun c hc => h c (List.mem_cons_of_mem _ hc))]

theorem splitFirstColon_none (l : List Char) (h : ∀ c ∈ l, c ≠ ':') :
    splitFirstColon l = none := by
  induction l with
  | nil => rfl
  | cons a t ih =>
    unfold splitFirstColon
    rw [if_neg (h a (List.mem_cons_self _ _)),
      ih (fun c hc => h c (List.mem_cons_of_mem _ hc))]

theorem pyStripList_cons_space (l : List Char) :
    pyStripList (' ' :: l) = pyStripList l := by
  unfold pyStripList
  rw [List.dropWhile_cons]
  simp [isPySpace]

theorem pyStrip_space_cons (rest : String) :
    pyStrip ⟨' ' :: rest.data⟩ = pyStrip rest := by
  unfold pyStrip
  rw [pyStripList_cons_space]

theorem stripConvMR_strip (ty rest : String) (h1 : ∀ c ∈ ty.data, c ≠ ':')
    (h2 : convTypes.contains (pyStrip ty) = true) :
    stripConvMR (ty ++ ":" ++ rest) = pyStrip rest := by
  unfold stripConvMR
  have hd : (ty ++ ":" ++ rest).data = ty.data ++ ':' :: rest.data := by
    rw [String.data_append, String.data_append]
    simp
  rw [hd, splitFirstColon_append _ _ h1]
  show (if convTypes.contains (pyStrip ty) then pyStrip rest else _) = pyStrip rest
  rw [if_pos h2]

theorem stripConvMR_keep (ty rest : String) (h1 : ∀ c ∈ ty.data, c ≠ ':')
    (h2 : convTypes.contains (pyStrip ty) = false) :
    stripConvMR (ty ++ ":" ++ rest) = ty ++ ":" ++ rest := by
  unfold stripConvMR
  have hd : (ty ++ ":" ++ rest).data = ty.data ++ ':' :: rest.data := by
    rw [String.data_append, String.data_append]
    simp
  rw [hd, splitFirstColon_append _ _ h1]
  show (if convTypes.contains (pyStrip ty) then pyStrip rest else (ty ++ ":" ++ rest))
    = ty ++ ":" ++ rest
  rw [if_neg (by rw [h2]; simp)]

/-- Claim C7, amended: the MR-summary stripper returns the trimmed rest for
`type: rest` exactly when the (trimmed) label before the first colon is one
of the seven conventional types, and returns the subject unchanged when the
label is not conventional or no colon occurs; the requirements-summary
stripper, by contrast, strips after the first colon regardless of the label
(see `stripConvReq_changes_cex`). -/
theorem strip_conv_spec :
    (∀ ty rest : String, ty ∈ convTypes →
       stripConvMR (ty ++ ": " ++ rest) = pyStrip rest) ∧
    (∀ ty rest : String, (∀ c ∈ ty.data, c ≠ ':') →
       convTypes.contains (pyStrip ty) = false →
       stripConvMR (ty ++ ":" ++ rest) = ty ++ ":" ++ rest) ∧
    (∀ s : String, (∀ c ∈ s.data, c ≠ ':') → stripConvMR s = s) ∧
    (∀ ty rest : String, (∀ c ∈ ty.data, c ≠ ':') →
       stripConvReq (ty ++ ":" ++ rest) = pyStrip rest) := by
  refine ⟨?_, ?_, ?_, ?_⟩
  · intro ty rest hty
    have hsplit : ty ++ ": " ++ rest = ty ++ ":" ++ (⟨' ' :: rest.data⟩ : String) := by
      apply String.ext
      simp [String.data_append]
    rw [hsplit]
    have hcf : ∀ c ∈ ty.data, c ≠ ':' := by
      simp only [convTypes, List.mem_cons, List.not_mem_nil, or_false] at hty
      rcases hty with rfl | rfl | rfl | rfl | rfl | rfl | rfl <;> decide
    have hmem : convTypes.contains (pyStrip ty) = true := by
      simp only [convTypes, List.mem_cons, List.not_mem_nil, or_false] at hty
      rcases hty with rfl | rfl | rfl | rfl | rfl | rfl | rfl <;> decide
    rw [stripConvMR_strip ty _ hcf hmem, pyStrip_space_cons]
  · intro ty rest h1 h2
    exact stripConvMR_keep ty rest h1 h2
  · intro s h
    unfold stripConvMR
    rw [splitFirstColon_none s.data h]
  · intro ty rest h1
    unfold stripConvReq
    have hd : (ty ++ ":" ++ rest).data = ty.data ++ ':' :: rest.data := by
      rw [String.data_append, String.data_append]
      simp
    rw [hd, splitFirstColon_append _ _ h1]

/-- Claim C7, counterexample: the requirements-summary stripper
(gitlab_workflow.py:1124-1128, one of the two cited stripper sites) strips
`"other: rest"` although `other` is not a conventional label — refuting
"returns the input unchanged for every other string". -/
theorem stripConvReq_changes_cex :
    stripConvReq "other: rest" = "rest" ∧
    stripConvReq "other: rest" ≠ "other: rest" :=
  ⟨by decide, by decide⟩

/-- Witness for `strip_conv_spec` at concrete subjects. -/
theorem strip_conv_spec_witness :
    stripConvMR ("feat" ++ ": " ++ "add X") = pyStrip "add X" ∧
    stripConvMR ("other" ++ ":" ++ " rest") = "other" ++ ":" ++ " rest" ∧
    stripConvMR "random message" = "random message" ∧
    stripConvReq ("other" ++ ":" ++ " rest") = pyStrip " rest" :=
  ⟨strip_conv_spec.1 "feat" "add X" (by decide),
   strip_conv_spec.2.1 "other" " rest" (by decide) (by decide),
   strip_conv_spec.2.2.1 "random message" (by decide),
   strip_conv_spec.2.2.2 "other" " rest" (by decide)⟩

theorem stripConvMR_id_of_not (s : String) (h : mrStrips s = false) :
    stripConvMR s = s := by
  unfold mrStrips at h
  unfold stripConvMR
  cases hsp : splitFirstColon s.data with
  | none => rfl
  | some pr =>
    obtain ⟨bef, aft⟩ := pr
    rw [hsp] at h
    have h' : convTypes.contains (pyStrip ⟨bef⟩) = false := h
    show (if convTypes.contains (pyStrip ⟨bef⟩) = true then pyStrip ⟨aft⟩ else s) = s
    rw [if_neg (by rw [h']; simp)]

theorem stripConvReq_id_of_not (s : String) (h : reqStrips s = false) :
    stripConvReq s = s := by
  unfold reqStrips at h
  unfold stripConvReq
  cases hsp : splitFirstColon s.data with
  | none => rfl
  | some pr =>
    rw [hsp] at h
    simp at h

/-- Claim C8, amended: stripping twice equals stripping once whenever the
once-stripped subject is not itself transformed again (for the MR-summary
stripper: its label before the first colon is not conventional; for the
requirements-summary stripper: it has no colon); the spec's two examples
hold as stated.  Unconditional idempotence is refuted by
`strip_conv_idem_cex`. -/
theorem strip_conv_idem_conditional :
    (∀ s : String, mrStrips (stripConvMR s) = false →
       stripConvMR (stripConvMR s) = stripConvMR s) ∧
    (∀ s : String, reqStrips (stripConvReq s) = false →
       stripConvReq (stripConvReq s) = stripConvReq s) ∧
    stripConvMR "feat: add X" = "add X" ∧
    stripConvMR (stripConvMR "feat: add X") = stripConvMR "feat: add X" ∧
    stripConvMR "random message" = "random message" ∧
    stripConvReq "random message" = "random message" :=
  ⟨fun _ h => stripConvMR_id_of_not _ h, fun _ h => stripConvReq_id_of_not _ h,
   by decide, by decide, by decide, by decide⟩

/-- Claim C8, counterexample: stripping is not idempotent — on
`"feat: fix: add X"` one strip yields `"fix: add X"` and a second strip
yields `"add X"`. -/
theorem strip_conv_idem_cex :
    stripConvMR "feat: fix: add X" = "fix: add X" ∧
    stripConvMR (stripConvMR "feat: fix: add X") = "add X" ∧
    stripConvMR (stripConvMR "feat: fix: add X") ≠ stripConvMR "feat: fix: add X" :=
  ⟨by decide, by decide, by decide⟩

/-- Witness for `strip_conv_idem_conditional` at concrete subjects. -/
theorem strip_conv_idem_witness :
    stripConvMR (stripConvMR "feat: add X") = stripConvMR "feat: add X" ∧
    stripConvReq (stripConvReq "a: b") = stripConvReq "a: b" :=
  ⟨strip_conv_idem_conditional.1 "feat: add X" (by decide),
   strip_conv_idem_conditional.2.1 "a: b" (by decide)⟩

/-- Claim C9: the diff-stat parser maps the empty string to all-zero counts,
parses the standard shortstat line to `(3, 10, 2)`, and defaults each count
to zero whenever its numeric pattern is absent from the (stripped) input. -/
theorem parse_shortstat_spec :
    parse_shortstat "" = ⟨0, 0, 0⟩ ∧
    parse_shortstat "3 files changed, 10 insertions(+), 2 deletions(-)" = ⟨3, 10, 2⟩ ∧
    ∀ s : String,
      (searchNum " file".data " changed".data (pyStrip s).data = none →
        (parse_shortstat s).files_changed = 0) ∧
      (searchNum " insertion".data "(+)".data (pyStrip s).data = none →
        (parse_shortstat s).insertions = 0) ∧
      (searchNum " deletion".data "(-)".data (pyStrip s).data = none →
        (parse_shortstat s).deletions = 0) := by
  refine ⟨by decide, by decide, fun s => ⟨?_, ?_, ?_⟩⟩ <;> intro h <;>
    unfold parse_shortstat <;> simp only [h, Option.getD_none] <;> split <;> rfl

/-- Witness for `parse_shortstat_spec`'s defaulting clauses at a concrete
input with no numeric patterns. -/
theorem parse_shortstat_spec_witness :
    (parse_shortstat "hello").files_changed = 0 ∧
    (parse_shortstat "hello").insertions = 0 ∧
    (parse_shortstat "hello").deletions = 0 :=
  ⟨(parse_shortstat_spec.2.2 "hello").1 (by decide),
   (parse_shortstat_spec.2.2 "hello").2.1 (by decide),
   (parse_shortstat_spec.2.2 "hello").2.2 (by decide)⟩

theorem pairScanSD_iff (l : List Char) :
    pairScanSD l = true ↔
      ∃ l₁ c l₂, l = l₁ ++ '/' :: c :: l₂ ∧ c.isDigit = true := by
  induction l with
  | nil =>
    simp only [pairScanSD, Bool.false_eq_true, false_iff]
    rintro ⟨l₁, c, l₂, he, -⟩
    cases l₁ <;> simp at he
  | cons a t ih =>
    cases t with
    | nil =>
      simp only [pairScanSD, Bool.false_eq_true, false_iff]
      rintro ⟨l₁, c, l₂, he, -⟩
      cases l₁ with
      | nil => simp at he
      | cons x xs =>
        rw [List.cons_append] at he
        injection he with h1 h2
        cases xs <;> simp at h2
    | cons b t2 =>
      rw [show pairScanSD (a :: b :: t2) =
        ((a = '/' && b.isDigit) || pairScanSD (b :: t2)) from rfl]
      rw [Bool.or_eq_true, Bool.and_eq_true, decide_eq_true_iff, ih]
      constructor
      · rintro (⟨ha, hb⟩ | ⟨l₁, c, l₂, he, hd⟩)
        · exact ⟨[], b, t2, by rw [ha]; simp, hb⟩
        · exact ⟨a :: l₁, c, l₂, by rw [List.cons_append, ← he], hd⟩
      · rintro ⟨l₁, c, l₂, he, hd⟩
        cases l₁ with
        | nil =>
          simp only [List.nil_append] at he
          injection he with h1 h2
          injection h2 with h3 h4
          exact Or.inl ⟨h1, h3 ▸ hd⟩
        | cons x xs =>
          rw [List.cons_append] at he
          injection he with h1 h2
          exact Or.inr ⟨xs, c, l₂, h2, hd⟩

theorem string_ne_empty_iff (s : String) : s ≠ "" ↔ s.data ≠ [] := by
  constructor
  · intro h hd
    exact h (by cases s; simp_all)
  · intro h he
    rw [he] at h
    exact h rfl

theorem pairScan_drop1_iff (s : String) :
    pairScanSD (s.data.drop 1) = true ↔
      ∃ p d r : String, s = p ++ "/" ++ d ++ r ∧ p ≠ "" ∧ d ≠ "" ∧
        d.data.all Char.isDigit = true := by
  cases hs : s.data with
  | nil =>
    simp only [List.drop_nil, pairScanSD, Bool.false_eq_true, false_iff]
    rintro ⟨p, d, r, he, hp, -, -⟩
    have : s.data = p.data ++ '/' :: (d.data ++ r.data) := by
      rw [he]
      simp [String.data_append]
    rw [hs] at this
    cases hq : p.data with
    | nil => exact (string_ne_empty_iff p).mp hp hq
    | cons x xs => rw [hq] at this; simp at this
  | cons a t =>
    rw [show List.drop 1 (a :: t) = t from rfl]
    rw [pairScanSD_iff]
    constructor
    · rintro ⟨l₁, c, l₂, he, hd⟩
      refine ⟨⟨a :: l₁⟩, ⟨[c]⟩, ⟨l₂⟩, ?_, ?_, ?_, ?_⟩
      · apply String.ext
        simp [String.data_append, hs, he]
      · rw [string_ne_empty_iff]
        simp
      · rw [string_ne_empty_iff]
        simp
      · simpa using hd
    · rintro ⟨p, d, r, he, hp, hd, hdig⟩
      have hdata : s.data = p.data ++ '/' :: (d.data ++ r.data) := by
        rw [he]
        simp [String.data_append]
      obtain ⟨x, xs, hq⟩ : ∃ x xs, p.data = x :: xs := by
        cases hq : p.data with
        | nil => exact absurd hq ((string_ne_empty_iff p).mp hp)
        | cons x xs => exact ⟨x, xs, rfl⟩
      obtain ⟨c, d2, hd2⟩ : ∃ c d2, d.data = c :: d2 := by
        cases hdd : d.data with
        | nil => exact absurd hdd ((string_ne_empty_iff d).mp hd)
        | cons c d2 => exact ⟨c, d2, rfl⟩
      have hcdig : c.isDigit = true := by
        rw [hd2] at hdig
        simp only [List.all_cons, Bool.and_eq_true] at hdig
        exact hdig.1
      rw [hs, hq, hd2, List.cons_append] at hdata
      injection hdata with h1 h2
      exact ⟨xs, c, d2 ++ r.data, by rw [h2]; simp, hcdig⟩

/-- Claim C5, amended: `validate_branch_name x` is true iff, after
discarding one optional trailing newline, the remaining string contains no
newline and decomposes as a non-empty prefix, a literal `/`, at least one
digit, then anything; the four example inputs behave as the spec states.
(The unrestricted "then anything" reading is refuted by
`validate_branch_name_cex`: the regex's `.` classes reject interior
newlines.) -/
theorem validate_branch_name_amended :
    (∀ x : String, validate_branch_name x = true ↔
      ((stripTrailNL x).data.all (fun c => c ≠ '\n') = true ∧
       ∃ p d r : String, stripTrailNL x = p ++ "/" ++ d ++ r ∧ p ≠ "" ∧ d ≠ "" ∧
         d.data.all Char.isDigit = true)) ∧
    validate_branch_name "VTM-1372/342-add-feature" = true ∧
    validate_branch_name "1372/305" = true ∧
    validate_branch_name "342-feature" = false ∧
    validate_branch_name "VTM-1372-342" = false := by
  refine ⟨fun x => ?_, by decide, by decide, by decide, by decide⟩
  unfold validate_branch_name
  rw [Bool.and_eq_true, pairScan_drop1_iff (stripTrailNL x)]

/-- Claim C5, counterexample: `"a/1\nb"` satisfies the spec's predicate
(non-empty prefix `a`, `/`, digit `1`, then anything `"\nb"`) yet the code's
regex rejects it, because `.` does not match a newline. -/
theorem validate_branch_name_cex :
    validate_branch_name "a/1\nb" = false ∧ specValidBranchName "a/1\nb" :=
  ⟨by decide, "a", "1", "\nb", by decide, by decide, by decide, by decide⟩

/-- Witness for `validate_branch_name_amended` at a concrete accepted name. -/
theorem validate_branch_name_witness :
    (stripTrailNL "1372/305").data.all (fun c => c ≠ '\n') = true ∧
    ∃ p d r : String, stripTrailNL "1372/305" = p ++ "/" ++ d ++ r ∧ p ≠ "" ∧
      d ≠ "" ∧ d.data.all Char.isDigit = true :=
  (validate_branch_name_amended.1 "1372/305").mp (by decide)

theorem scoreOf_foldl_ge (search : String → Bool) :
    ∀ (pats : List (String × ℚ)) (acc : ℚ), (∀ pw ∈ pats, 0 ≤ pw.2) →
      acc ≤ pats.foldl (fun a pw => if search pw.1 then a + pw.2 else a) acc := by
  intro pats
  induction pats with
  | nil => intro acc _; exact le_refl acc
  | cons pw t ih =>
    intro acc h
    rw [List.foldl_cons]
    have hstep : acc ≤ if search pw.1 then acc + pw.2 else acc := by
      split
      · linarith [h pw (List.mem_cons_self _ _)]
      · exact le_refl acc
    exact le_trans hstep (ih _ (fun q hq => h q (List.mem_cons_of_mem _ hq)))

theorem scoreOf_nonneg (search : String → Bool) (pats : List (String × ℚ))
    (h : ∀ pw ∈ pats, 0 ≤ pw.2) : 0 ≤ scoreOf search pats :=
  scoreOf_foldl_ge search pats 0 h

theorem scoreOf_zero_or_ge (search : String → Bool) (pats : List (String × ℚ))
    (h : ∀ pw ∈ pats, 3/5 ≤ pw.2) :
    scoreOf search pats = 0 ∨ 3/5 ≤ scoreOf search pats := by
  have hnn : ∀ pw ∈ pats, (0:ℚ) ≤ pw.2 := fun pw hm => le_trans (by norm_num) (h pw hm)
  unfold scoreOf
  suffices hgen : ∀ (acc : ℚ),
      pats.foldl (fun a pw => if search pw.1 then a + pw.2 else a) acc = acc ∨
      acc + 3/5 ≤ pats.foldl (fun a pw => if search pw.1 then a + pw.2 else a) acc by
    rcases hgen 0 with hg | hg
    · exact Or.inl hg
    · right
      linarith
  clear hnn
  induction pats with
  | nil => intro acc; exact Or.inl rfl
  | cons pw t ih =>
    intro acc
    rw [List.foldl_cons]
    by_cases hs : search pw.1
    · right
      rw [if_pos hs]
      have hw : 3/5 ≤ pw.2 := h pw (List.mem_cons_self _ _)
      have hnn' : ∀ q ∈ t, (0:ℚ) ≤ q.2 :=
        fun q hq => le_trans (by norm_num) (h q (List.mem_cons_of_mem _ hq))
      have := scoreOf_foldl_ge search t (acc + pw.2) hnn'
      linarith
    · rw [if_neg hs]
      exact ih (fun q hq => h q (List.mem_cons_of_mem _ hq)) acc

theorem scoreOf_eq_zero (search : String → Bool) (pats : List (String × ℚ))
    (h : ∀ pw ∈ pats, search pw.1 = false) : scoreOf search pats = 0 := by
  unfold scoreOf
  induction pats with
  | nil => rfl
  | cons pw t ih =>
    rw [List.foldl_cons, if_neg (by rw [h pw (List.mem_cons_self _ _)]; simp)]
    exact ih (fun q hq => h q (List.mem_cons_of_mem _ hq))

theorem signalsOf_eq_nil (search : String → Bool) (pats : List (String × ℚ))
    (ty : String) (h : ∀ pw ∈ pats, search pw.1 = false) :
    signalsOf search pats ty = [] := by
  unfold signalsOf
  rw [List.filter_eq_nil.mpr (fun pw hm => by rw [h pw hm]; simp)]
  rfl

theorem round2_le_one {q : ℚ} (h : q ≤ 1) : round2 q ≤ 1 := by
  unfold round2
  rw [div_le_one (by norm_num : (0:ℚ) < 100)]
  have h1 : (⌊q * 100 + 1/2⌋ : ℤ) ≤ 100 := by
    have h2 : q * 100 + 1/2 ≤ 201/2 := by linarith
    calc ⌊q * 100 + 1/2⌋ ≤ ⌊(201/2 : ℚ)⌋ := Int.floor_le_floor h2
      _ = 100 := by rw [Int.floor_eq_iff] <;> norm_num
  exact_mod_cast h1

theorem round2_ge_threeTenths {q : ℚ} (h : 3/10 ≤ q) : 3/10 ≤ round2 q := by
  unfold round2
  rw [le_div_iff (by norm_num : (0:ℚ) < 100)]
  have h30 : ⌊(61/2 : ℚ)⌋ = (30:ℤ) := by
    rw [Int.floor_eq_iff] <;> norm_num
  have h1 : (30 : ℤ) ≤ ⌊q * 100 + 1/2⌋ := by
    have h2 : (61/2 : ℚ) ≤ q * 100 + 1/2 := by linarith
    rw [← h30]
    exact Int.floor_le_floor h2
  have h1' : (30 : ℚ) ≤ ((⌊q * 100 + 1/2⌋ : ℤ) : ℚ) := by exact_mod_cast h1
  linarith

theorem round2_three_tenths : round2 (3/10) = 3/10 := by
  unfold round2
  rw [show ⌊(3/10 : ℚ) * 100 + 1/2⌋ = 30 from by
    rw [Int.floor_eq_iff] <;> norm_num]
  norm_num

/-- Claim C10: `classify_question` is total and deterministic (a pure
function of the per-pattern match outcomes), its type is always one of
EXPLORATION / DECISION / EXECUTION, its confidence always lies in `(0, 1]`,
and when no pattern of any category matches it returns EXECUTION with
confidence `0.3` and an empty matched-signal list. -/
theorem classify_question_spec :
    ∀ search : String → Bool,
      ((classify_question search).ty = "EXPLORATION" ∨
       (classify_question search).ty = "DECISION" ∨
       (classify_question search).ty = "EXECUTION") ∧
      (0 < (classify_question search).confidence ∧
       (classify_question search).confidence ≤ 1) ∧
      ((∀ p ∈ allPatterns, search p = false) →
        (classify_question search).ty = "EXECUTION" ∧
        (classify_question search).confidence = 3/10 ∧
        (classify_question search).matchedSignals = []) := by
  intro search
  unfold classify_question
  refine ⟨?_, ⟨?_, ?_⟩, ?_⟩
  · dsimp only
    split_ifs <;> simp
  · dsimp only
    by_cases hmax : max (scoreOf search exploration_patterns)
        (max (scoreOf search decision_patterns) (scoreOf search execution_patterns)) = 0
    · rw [if_pos hmax, round2_three_tenths]
      norm_num
    · rw [if_neg hmax]
      have h35 : 3/5 ≤ max (scoreOf search exploration_patterns)
          (max (scoreOf search decision_patterns) (scoreOf search execution_patterns)) := by
        rcases scoreOf_zero_or_ge search exploration_patterns
            (by intro pw hm; fin_cases hm <;> norm_num) with he | he
        · rcases scoreOf_zero_or_ge search decision_patterns
              (by intro pw hm; fin_cases hm <;> norm_num) with hd | hd
          · rcases scoreOf_zero_or_ge search execution_patterns
                (by intro pw hm; fin_cases hm <;> norm_num) with hx | hx
            · exfalso
              apply hmax
              rw [he, hd, hx]
              simp
            · exact le_trans (le_trans hx (le_max_right _ _)) (le_max_right _ _)
          · exact le_trans (le_trans hd (le_max_left _ _)) (le_max_right _ _)
        · exact le_trans he (le_max_left _ _)
      have hlow : 3/10 ≤ min (max (scoreOf search exploration_patterns)
          (max (scoreOf search decision_patterns) (scoreOf search execution_patterns)) / 2) 1 :=
        le_min (by linarith) (by norm_num)
      have := round2_ge_threeTenths hlow
      linarith
  · dsimp only
    by_cases hmax : max (scoreOf search exploration_patterns)
        (max (scoreOf search decision_patterns) (scoreOf search execution_patterns)) = 0
    · rw [if_pos hmax, round2_three_tenths]
      norm_num
    · rw [if_neg hmax]
      exact round2_le_one (min_le_right _ _)
  · intro hall
    have hforTable : ∀ pats : List (String × ℚ),
        (∀ q : String, q ∈ pats.map Prod.fst → q ∈ allPatterns) →
        ∀ pw ∈ pats, search pw.1 = false := by
      intro pats hsub pw hm
      exact hall pw.1 (hsub pw.1 (List.mem_map_of_mem _ hm))
    have hsubE : ∀ q : String, q ∈ exploration_patterns.map Prod.fst → q ∈ allPatterns := by
      intro q hq
      unfold allPatterns
      rw [List.map_append, List.map_append]
      exact List.mem_append_left _ (List.mem_append_left _ hq)
    have hsubD : ∀ q : String, q ∈ decision_patterns.map Prod.fst → q ∈ allPatterns := by
      intro q hq
      unfold allPatterns
      rw [List.map_append, List.map_append]
      exact List.mem_append_left _ (List.mem_append_right _ hq)
    have hsubX : ∀ q : String, q ∈ execution_patterns.map Prod.fst → q ∈ allPatterns := by
      intro q hq
      unfold allPatterns
      rw [List.map_append, List.map_append]
      exact List.mem_append_right _ hq
    have he0 := scoreOf_eq_zero search exploration_patterns
      (hforTable exploration_patterns hsubE)
    have hd0 := scoreOf_eq_zero search decision_patterns
      (hforTable decision_patterns hsubD)
    have hx0 := scoreOf_eq_zero search execution_patterns
      (hforTable execution_patterns hsubX)
    have hmax : max (scoreOf search exploration_patterns)
        (max (scoreOf search decision_patterns) (scoreOf search execution_patterns)) = 0 := by
      rw [he0, hd0, hx0]
      simp
    dsimp only
    simp only [if_pos hmax]
    refine ⟨trivial, round2_three_tenths, ?_⟩
    rw [signalsOf_eq_nil search _ _ (hforTable exploration_patterns hsubE),
      signalsOf_eq_nil search _ _ (hforTable decision_patterns hsubD),
      signalsOf_eq_nil search _ _ (hforTable execution_patterns hsubX)]
    rfl

/-- Witness for `classify_question_spec`'s fallback clause: the all-false
matcher. -/
theorem classify_question_spec_witness :
    (classify_question (fun _ => false)).ty = "EXECUTION" ∧
    (classify_question (fun _ => false)).confidence = 3/10 ∧
    (classify_question (fun _ => false)).matchedSignals = [] :=
  (classify_question_spec (fun _ => false)).2.2 (fun _ _ => rfl)

/-! ## Rollback block lemmas and claim C1 -/

theorem splitLinesAux_ne_nil : ∀ (acc l : List Char), splitLinesAux acc l ≠ [] := by
  intro acc l
  induction l generalizing acc with
  | nil => simp [splitLinesAux]
  | cons c rest ih =>
    unfold splitLinesAux
    by_cases hc : c = '\n'
    · rw [if_pos hc]
      simp
    · rw [if_neg hc]
      exact ih _

theorem get_remote_name_ok (cfg : Option String) (cmdOk : Bool) (stdout : String)
    (hre : (cfg.getD "") ≠ "" ∨ cmdOk = true) :
    ∃ r, get_remote_name cfg cmdOk stdout = .ok r := by
  unfold get_remote_name
  by_cases hc : (cfg.getD "") ≠ ""
  · rw [if_pos hc]
    exact ⟨_, rfl⟩
  · rw [if_neg hc]
    have hcmd : cmdOk = true := by
      rcases hre with h | h
      · exact absurd h hc
      · exact h
    rw [hcmd, if_pos rfl]
    by_cases ho : (pySplitLines (pyStrip stdout)).contains "origin"
    · rw [if_pos ho]
      exact ⟨_, rfl⟩
    · rw [if_neg ho]
      cases hq : pySplitLines (pyStrip stdout) with
      | nil =>
        exfalso
        unfold pySplitLines at hq
        exact splitLinesAux_ne_nil [] (pyStrip stdout).data (by
          cases hz : splitLinesAux [] (pyStrip stdout).data
          · rfl
          · rw [hz] at hq
            simp at hq)
      | cons r t => exact ⟨r, rfl⟩

theorem rbBlockDeleteRemote_ok (state : WorkflowState) (cfg : Option String)
    (env : RbEnv) (hre : (cfg.getD "") ≠ "" ∨ env.remoteCmdOk = true) :
    ∃ rm : String, rbBlockDeleteRemote state cfg env =
      .ok (if state.has "pushed" && state.branch_name.getD "" ≠ "" then
        [RbEvent.deleteRemote rm (state.branch_name.getD "") env.pushDeleteOk]
      else []) := by
  obtain ⟨r, hr⟩ := get_remote_name_ok cfg env.remoteCmdOk env.remoteStdout hre
  refine ⟨r, ?_⟩
  unfold rbBlockDeleteRemote
  split
  · rw [hr]
    rfl
  · rfl

theorem rbBlockDeleteLocal_ok (state : WorkflowState) (env : RbEnv) (cur : String)
    (h3 : env.curBranchOk3 = true) :
    ∃ tg ok, rbBlockDeleteLocal state env cur =
      .ok ((if state.has "branch_created" && state.branch_name.getD "" ≠ "" then
        [RbEvent.deleteLocal (state.branch_name.getD "") tg ok] else []),
        rbCurBeforeSwitchBack state env cur) := by
  unfold rbBlockDeleteLocal rbCurBeforeSwitchBack
  by_cases hg : (state.has "branch_created" && state.branch_name.getD "" ≠ "") = true
  · simp only [if_pos hg, h3, if_true]
    by_cases hceq : cur = state.branch_name.getD ""
    · simp only [if_pos hceq]
      by_cases hck : env.checkoutAwayOk = true
      · simp only [hck, if_true]
        exact ⟨_, _, rfl⟩
      · simp only [Bool.not_eq_true] at hck
        simp only [hck, Bool.false_eq_true, if_false]
        exact ⟨_, _, rfl⟩
    · simp only [if_neg hceq]
      exact ⟨_, _, rfl⟩
  · simp only [if_neg hg]
    exact ⟨none, true, by trivial⟩

theorem rbBlockSwitchBack_ok (state : WorkflowState) (env : RbEnv) (cur : String)
    (h4 : env.curBranchOk4 = true) :
    ∃ ok cur4, rbBlockSwitchBack state env cur =
      .ok ((if ((state.has "switched_to_base" && state.original_branch.getD "" ≠ "") = true ∧
        cur ≠ state.original_branch.getD "") then
        [RbEvent.switchBack (state.original_branch.getD "") ok] else []), cur4) := by
  unfold rbBlockSwitchBack
  by_cases hg : (state.has "switched_to_base" && state.original_branch.getD "" ≠ "") = true
  · simp only [if_pos hg, h4, if_true]
    by_cases hne : cur ≠ state.original_branch.getD ""
    · simp only [if_pos hne, if_pos (And.intro hg hne)]
      by_cases hck : env.checkoutOrigOk = true
      · simp only [hck, if_true]
        exact ⟨_, _, rfl⟩
      · simp only [Bool.not_eq_true] at hck
        simp only [hck, Bool.false_eq_true, if_false]
        exact ⟨_, _, rfl⟩
    · have hnc : ¬ (((state.has "switched_to_base" &&
          state.original_branch.getD "" ≠ "") = true) ∧
          cur ≠ state.original_branch.getD "") := fun hand => hne hand.2
      simp only [if_neg hne, if_neg hnc]
      exact ⟨true, cur, by trivial⟩
  · have hnc : ¬ (((state.has "switched_to_base" &&
        state.original_branch.getD "" ≠ "") = true) ∧
        cur ≠ state.original_branch.getD "") := fun hand => hg hand.1
    simp only [if_neg hg, if_neg hnc]
    exact ⟨true, cur, by trivial⟩

set_option maxHeartbeats 2000000 in
/-- Claim C1, amended: provided the helper lookups inside `rollback` succeed
(remote name resolvable, both current-branch queries exit cleanly),
`rollback` raises nothing, attempts exactly the undo actions whose guards
hold — re-stash iff `stash_popped` is marked; delete the remote branch iff
`pushed` is marked and a non-empty branch name is set; delete the local
branch (switching away first when it is checked out) iff `branch_created` is
marked and a non-empty branch name is set; check out the original branch iff
`switched_to_base` is marked, a non-empty original branch is set and the
branch current at that step differs; pop the stash iff `stashed` is marked
and `stash_popped` is not — in the fixed reverse order, skipping unmarked
steps silently and logging (never raising) failures of the git undo commands
themselves.  Without that proviso the code can raise out of `rollback`:
see `rollback_raises_cex`. -/
theorem rollback_spec :
    ∀ (state : WorkflowState) (cfg : Option String) (env : RbEnv) (cur : String),
      ((cfg.getD "") ≠ "" ∨ env.remoteCmdOk = true) →
      env.curBranchOk3 = true → env.curBranchOk4 = true →
      ∃ evs curF, rollback state cfg env cur = .ok (evs, curF) ∧
        ((∃ ok, RbEvent.reStash ok ∈ evs) ↔ state.has "stash_popped" = true) ∧
        ((∃ rm b ok, RbEvent.deleteRemote rm b ok ∈ evs) ↔
          (state.has "pushed" = true ∧ state.branch_name.getD "" ≠ "")) ∧
        ((∃ b tg ok, RbEvent.deleteLocal b tg ok ∈ evs) ↔
          (state.has "branch_created" = true ∧ state.branch_name.getD "" ≠ "")) ∧
        ((∃ b ok, RbEvent.switchBack b ok ∈ evs) ↔
          (state.has "switched_to_base" = true ∧ state.original_branch.getD "" ≠ "" ∧
           rbCurBeforeSwitchBack state env cur ≠ state.original_branch.getD "")) ∧
        ((∃ ok, RbEvent.popStash ok ∈ evs) ↔
          (state.has "stashed" = true ∧ ¬ state.has "stash_popped" = true)) ∧
        (evs.map rbRank).Pairwise (· < ·) := by
  intro state cfg env cur hre h3 h4
  obtain ⟨rm, h2⟩ := rbBlockDeleteRemote_ok state cfg env hre
  obtain ⟨tg, okc, hl⟩ := rbBlockDeleteLocal_ok state env cur h3
  obtain ⟨oks, cur4, hs⟩ :=
    rbBlockSwitchBack_ok state env (rbCurBeforeSwitchBack state env cur) h4
  refine ⟨rbBlockReStash state env ++
    (if (state.has "pushed" && decide (state.branch_name.getD "" ≠ "")) = true then
      [RbEvent.deleteRemote rm (state.branch_name.getD "") env.pushDeleteOk] else []) ++
    (if (state.has "branch_created" && decide (state.branch_name.getD "" ≠ "")) = true then
      [RbEvent.deleteLocal (state.branch_name.getD "") tg okc] else []) ++
    (if ((state.has "switched_to_base" && decide (state.original_branch.getD "" ≠ "")) = true ∧
      rbCurBeforeSwitchBack state env cur ≠ state.original_branch.getD "") then
      [RbEvent.switchBack (state.original_branch.getD "") oks] else []) ++
    rbBlockPopStash state env, cur4, ?_, ?_, ?_, ?_, ?_, ?_, ?_⟩
  · unfold rollback
    rw [h2, hl]
    dsimp only
    rw [hs]
  all_goals clear h2 hl hs hre
  all_goals unfold rbBlockReStash rbBlockPopStash
  all_goals split_ifs <;>
    simp_all [Bool.and_eq_true, decide_eq_true_iff, List.mem_append, rbRank,
      List.map_append, List.pairwise_append]

/-- Claim C1, counterexample: on a state that records `pushed` with a branch
name, when no remote is configured and the `git remote` call fails,
`get_remote_name` raises a plain `Exception` that the remote-delete block's
`except CalledProcessError` does not catch — `rollback` raises instead of
logging, refuting "a failing undo action is logged, never raised". -/
theorem rollback_raises_cex :
    rollback stC1 none rbC1 "vtm-1/7-add-logout" = .error remoteFailMsg := by
  rfl

/-- Witness for `rollback_spec` on a concrete pushed-branch state with all
rollback calls succeeding. -/
theorem rollback_spec_witness :
    ∃ evs curF,
      rollback stC1 (some "origin") rbAllOk "vtm-1/7-add-logout" = .ok (evs, curF) ∧
      ((∃ ok, RbEvent.reStash ok ∈ evs) ↔ stC1.has "stash_popped" = true) ∧
      ((∃ rm b ok, RbEvent.deleteRemote rm b ok ∈ evs) ↔
        (stC1.has "pushed" = true ∧ stC1.branch_name.getD "" ≠ "")) ∧
      ((∃ b tg ok, RbEvent.deleteLocal b tg ok ∈ evs) ↔
        (stC1.has "branch_created" = true ∧ stC1.branch_name.getD "" ≠ "")) ∧
      ((∃ b ok, RbEvent.switchBack b ok ∈ evs) ↔
        (stC1.has "switched_to_base" = true ∧ stC1.original_branch.getD "" ≠ "" ∧
         rbCurBeforeSwitchBack stC1 rbAllOk "vtm-1/7-add-logout" ≠
           stC1.original_branch.getD "")) ∧
      ((∃ ok, RbEvent.popStash ok ∈ evs) ↔
        (stC1.has "stashed" = true ∧ ¬ stC1.has "stash_popped" = true)) ∧
      (evs.map rbRank).Pairwise (· < ·) :=
  rollback_spec stC1 (some "origin") rbAllOk "vtm-1/7-add-logout" (by decide) rfl rfl

/-! ## Error messages are never empty -/

theorem append_ne_empty_left (a b : String) (h : a ≠ "") : a ++ b ≠ "" := by
  rw [string_ne_empty_iff] at h ⊢
  rw [String.data_append]
  intro hc
  exact h (List.append_eq_nil.mp hc).1

theorem append_ne_empty_right (a b : String) (h : b ≠ "") : a ++ b ≠ "" := by
  rw [string_ne_empty_iff] at h ⊢
  rw [String.data_append]
  intro hc
  exact h (List.append_eq_nil.mp hc).2

theorem cpeMsg_ne (cmd : String) : cpeMsg cmd ≠ "" :=
  append_ne_empty_left _ _ (append_ne_empty_left _ _ (by decide))

theorem fileNotFoundMsg_ne (path : String) : fileNotFoundMsg path ≠ "" :=
  append_ne_empty_left _ _ (by decide)

theorem missingFieldMsg_ne (f : String) : missingFieldMsg f ≠ "" :=
  append_ne_empty_left _ _ (by decide)

theorem jsonDecodeErrMsg_ne (d : String) : jsonDecodeErrMsg d ≠ "" :=
  append_ne_empty_right _ _ (by decide)

theorem apiErrMsg_ne (c : Nat) (b : String) : apiErrMsg c b ≠ "" :=
  append_ne_empty_left _ _ (append_ne_empty_left _ _ (append_ne_empty_left _ _ (by decide)))

theorem saveErrMsgOf_ne (d : String) : saveErrMsgOf d ≠ "" :=
  append_ne_empty_left _ _ (by decide)

theorem curBranchFailMsg_ne : curBranchFailMsg ≠ "" :=
  append_ne_empty_left _ _ (by decide)

theorem remoteBaseMsg_ne (remote base : String) :
    "Remote branch not found: " ++ remote ++ "/" ++ base ≠ "" :=
  append_ne_empty_left _ _ (append_ne_empty_left _ _ (append_ne_empty_left _ _ (by decide)))

theorem get_remote_name_error_ne (cfg : Option String) (cmdOk : Bool)
    (stdout : String) (e : String) (h : get_remote_name cfg cmdOk stdout = .error e) :
    e ≠ "" := by
  unfold get_remote_name at h
  split at h
  · exact absurd h (by simp)
  · split at h
    · dsimp only at h
      split at h
      · exact absurd h (by simp)
      · split at h
        · exact absurd h (by simp)
        · rw [Except.error.injEq] at h
          rw [← h]
          decide
    · rw [Except.error.injEq] at h
      rw [← h]
      exact append_ne_empty_left _ _ (by decide)

/-! ## Workflow state bookkeeping lemmas -/

theorem mark_issue_iid (st : WorkflowState) (s : String) :
    (st.mark s).issue_iid = st.issue_iid := rfl

theorem mark_branch_name (st : WorkflowState) (s : String) :
    (st.mark s).branch_name = st.branch_name := rfl

theorem mark_stashed (st : WorkflowState) (s : String) :
    (st.mark s).stashed = st.stashed := rfl

theorem mark_stashed_files (st : WorkflowState) (s : String) :
    (st.mark s).stashed_files = st.stashed_files := rfl

theorem contains_append_singleton (l : List String) (x y : String) :
    (l ++ [x]).contains y = (l.contains y || y == x) := by
  induction l with
  | nil =>
    rw [List.nil_append, List.contains_cons]
    cases hc : y == x <;> simp [hc]
  | cons a t ih =>
    rw [List.cons_append, List.contains_cons, List.contains_cons, ih, Bool.or_assoc]

theorem has_mark (st : WorkflowState) (s t : String) :
    (st.mark s).has t = (st.has t || t == s) := by
  unfold WorkflowState.mark WorkflowState.has
  exact contains_append_singleton _ _ _

theorem has_mark_self (st : WorkflowState) (s : String) :
    (st.mark s).has s = true := by
  rw [has_mark]
  simp

theorem has_mark_ne (st : WorkflowState) (s t : String) (hne : t ≠ s) :
    (st.mark s).has t = st.has t := by
  rw [has_mark]
  rw [show (t == s) = false from by simp [hne]]
  simp

theorem runStash_error (env : Env) (st2 : WorkflowState) (e : String)
    (h : runStash env st2 = .error e) : e = cpeMsg "git stash push" := by
  unfold runStash at h
  by_cases hclean : (env.porcelainOk && env.porcelainEmpty) = true
  · rw [if_neg (by simp [hclean])] at h
    simp at h
  · have hcf : (env.porcelainOk && env.porcelainEmpty) = false := by
      cases hv : (env.porcelainOk && env.porcelainEmpty)
      · rfl
      · exact absurd hv hclean
    rw [hcf] at h
    simp only [Bool.not_false, if_true] at h
    by_cases hst : env.stashPushOk = true
    · rw [if_pos hst] at h
      simp at h
    · have hsf : env.stashPushOk = false := by
        cases hv : env.stashPushOk
        · rfl
        · exact absurd hv hst
      rw [hsf] at h
      simp only [Bool.false_eq_true, if_false] at h
      rw [Except.error.injEq] at h
      exact h.symm

theorem runStash_cases (env : Env) (st2 st3 : WorkflowState)
    (h : runStash env st2 = .ok st3) :
    ((env.porcelainOk && env.porcelainEmpty) = false ∧ env.stashPushOk = true ∧
      st3 = ({ st2 with
        stashed := true,
        stashed_files := if env.dirtyOk then env.dirtyFiles else [] }).mark "stashed") ∨
    ((env.porcelainOk && env.porcelainEmpty) = true ∧
      st3 = { st2 with stashed := false }) := by
  unfold runStash at h
  by_cases hclean : (env.porcelainOk && env.porcelainEmpty) = true
  · rw [if_neg (by simp [hclean])] at h
    rw [Except.ok.injEq] at h
    exact Or.inr ⟨hclean, h.symm⟩
  · have hcf : (env.porcelainOk && env.porcelainEmpty) = false := by
      cases hv : (env.porcelainOk && env.porcelainEmpty)
      · rfl
      · exact absurd hv hclean
    rw [hcf] at h
    simp only [Bool.not_false, if_true] at h
    by_cases hst : env.stashPushOk = true
    · rw [if_pos hst] at h
      rw [Except.ok.injEq] at h
      exact Or.inl ⟨hcf, hst, h.symm⟩
    · have hsf : env.stashPushOk = false := by
        cases hv : env.stashPushOk
        · rfl
        · exact absurd hv hst
      rw [hsf] at h
      simp at h

theorem runStashPop_error (env : Env) (st9 : WorkflowState) (e : String)
    (h : runStashPop env st9 = .error e) : e = cpeMsg "git stash pop" := by
  unfold runStashPop at h
  by_cases hs : st9.stashed = true
  · rw [if_pos hs] at h
    by_cases hpop : env.stashPopOk = true
    · rw [if_pos hpop] at h
      simp at h
    · have hpf : env.stashPopOk = false := by
        cases hv : env.stashPopOk
        · rfl
        · exact absurd hv hpop
      rw [hpf] at h
      simp only [Bool.false_eq_true, if_false] at h
      rw [Except.error.injEq] at h
      exact h.symm
  · rw [if_neg hs] at h
    simp at h

theorem runStashPop_ok (env : Env) (st9 st10 : WorkflowState)
    (h : runStashPop env st9 = .ok st10) :
    st10.issue_iid = st9.issue_iid ∧ st10.branch_name = st9.branch_name ∧
    st10.stashed = st9.stashed ∧ st10.stashed_files = st9.stashed_files ∧
    (st9.stashed = true → env.stashPopOk = true) := by
  unfold runStashPop at h
  by_cases hs : st9.stashed = true
  · rw [if_pos hs] at h
    by_cases hpop : env.stashPopOk = true
    · rw [if_pos hpop] at h
      rw [Except.ok.injEq] at h
      subst h
      exact ⟨rfl, rfl, rfl, rfl, fun _ => hpop⟩
    · have hpf : env.stashPopOk = false := by
        cases hv : env.stashPopOk
        · rfl
        · exact absurd hv hpop
      rw [hpf] at h
      simp at h
  · rw [if_neg hs] at h
    rw [Except.ok.injEq] at h
    subst h
    exact ⟨rfl, rfl, rfl, rfl, fun hx => absurd hx hs⟩

theorem bool_eq_false {b : Bool} (h : ¬ b = true) : b = false := by
  cases hv : b
  · rfl
  · exact absurd hv h

theorem runFinal_inv (env : Env) (bname : String) (st9 : WorkflowState)
    (cur2 : String) (hiid9 : st9.issue_iid = some env.issueIid)
    (hbn9 : st9.branch_name = some bname) :
    (∀ msg st cur, runFinal env bname st9 cur2 = .failure msg st cur →
      msg ≠ "" ∧ (st.has "branch_created" = true → st.branch_name.isSome = true) ∧
      st.issue_iid = some env.issueIid) ∧
    (∀ res st cur, runFinal env bname st9 cur2 = .success res st cur →
      res.success = true ∧ res.error = none ∧ res.issue_iid = some env.issueIid ∧
      (st9.stashed = true → env.stashPopOk = true) ∧
      ((st9.stashed && !st9.stashed_files.isEmpty) = true → env.updateIssueOk = true) ∧
      (env.issueDirConfigured = true → env.saveOk = true)) := by
  constructor
  · intro msg st cur h
    unfold runFinal at h
    cases heq : runStashPop env st9 with
    | error e =>
      rw [heq] at h
      cases h
      have he := runStashPop_error _ _ _ heq
      refine ⟨?_, fun _ => by rw [hbn9]; rfl, hiid9⟩
      rw [he]
      exact cpeMsg_ne _
    | ok st10 =>
      rw [heq] at h
      dsimp only at h
      obtain ⟨hiid10, hbn10, hstash10, hfiles10, hpop10⟩ := runStashPop_ok _ _ _ heq
      split at h
      · cases h
        refine ⟨apiErrMsg_ne _ _, fun _ => ?_, ?_⟩
        · rw [hbn10, hbn9]
          rfl
        · rw [hiid10]
          exact hiid9
      · split at h
        · cases h
          refine ⟨saveErrMsgOf_ne _, fun _ => ?_, ?_⟩
          · rw [hbn10, hbn9]
            rfl
          · rw [hiid10]
            exact hiid9
        · exact absurd h (by simp)
  · intro res st cur h
    unfold runFinal at h
    cases heq : runStashPop env st9 with
    | error e =>
      rw [heq] at h
      exact absurd h (by simp)
    | ok st10 =>
      rw [heq] at h
      dsimp only at h
      obtain ⟨hiid10, hbn10, hstash10, hfiles10, hpop10⟩ := runStashPop_ok _ _ _ heq
      split at h
      · exact absurd h (by simp)
      rename_i hupd
      split at h
      · exact absurd h (by simp)
      rename_i hsave
      cases h
      refine ⟨rfl, rfl, rfl, ?_, ?_, ?_⟩
      · exact fun hx => hpop10 hx
      · intro hax
        by_contra hno
        refine hupd ⟨?_, hno⟩
        rw [hstash10, hfiles10]
        exact hax
      · intro hdir
        by_contra hno
        exact hsave ⟨hdir, hno⟩

theorem runPhasesTail_inv (env : Env) (base : String) (st3 : WorkflowState)
    (cur0 : String) (hiid : st3.issue_iid = some env.issueIid)
    (hbc : st3.has "branch_created" = false) :
    (∀ msg st cur, runPhasesTail env base st3 cur0 = .failure msg st cur →
      msg ≠ "" ∧ (st.has "branch_created" = true → st.branch_name.isSome = true) ∧
      st.issue_iid = some env.issueIid) ∧
    (∀ res st cur, runPhasesTail env base st3 cur0 = .success res st cur →
      res.success = true ∧ res.error = none ∧ res.issue_iid = some env.issueIid ∧
      env.curBranchOk = true ∧ env.checkoutBaseOk = true ∧ env.pullOk = true ∧
      env.checkoutNewOk = true ∧ env.pushOk = true ∧
      (st3.stashed = true → env.stashPopOk = true) ∧
      ((st3.stashed && !st3.stashed_files.isEmpty) = true → env.updateIssueOk = true) ∧
      (env.issueDirConfigured = true → env.saveOk = true)) := by
  constructor
  · intro msg st cur h
    unfold runPhasesTail at h
    by_cases h1 : env.curBranchOk = true
    · rw [if_neg (not_not_intro h1)] at h
      by_cases h2 : env.checkoutBaseOk = true
      · rw [if_neg (not_not_intro h2)] at h
        by_cases h3p : env.pullOk = true
        · rw [if_neg (not_not_intro h3p)] at h
          by_cases h4 : env.checkoutNewOk = true
          · rw [if_neg (not_not_intro h4)] at h
            by_cases h5 : env.pushOk = true
            · rw [if_neg (not_not_intro h5)] at h
              refine (runFinal_inv env _ _ _ ?_ ?_).1 msg st cur h
              · exact hiid
              · rfl
            · rw [if_pos h5] at h
              cases h
              exact ⟨cpeMsg_ne _, fun _ => rfl, hiid⟩
          · rw [if_pos h4] at h
            cases h
            exact ⟨cpeMsg_ne _, fun _ => rfl, hiid⟩
        · rw [if_pos h3p] at h
          cases h
          refine ⟨cpeMsg_ne _, ?_, hiid⟩
          intro hb
          rw [has_mark_ne _ _ _ (by decide)] at hb
          have hb' : st3.has "branch_created" = true := hb
          rw [hbc] at hb'
          exact absurd hb' (by simp)
      · rw [if_pos h2] at h
        cases h
        refine ⟨cpeMsg_ne _, ?_, hiid⟩
        intro hb
        have hb' : st3.has "branch_created" = true := hb
        rw [hbc] at hb'
        exact absurd hb' (by simp)
    · rw [if_pos h1] at h
      cases h
      refine ⟨curBranchFailMsg_ne, ?_, hiid⟩
      intro hb
      rw [hbc] at hb
      exact absurd hb (by simp)
  · intro res st cur h
    unfold runPhasesTail at h
    by_cases h1 : env.curBranchOk = true
    · rw [if_neg (not_not_intro h1)] at h
      by_cases h2 : env.checkoutBaseOk = true
      · rw [if_neg (not_not_intro h2)] at h
        by_cases h3p : env.pullOk = true
        · rw [if_neg (not_not_intro h3p)] at h
          by_cases h4 : env.checkoutNewOk = true
          · rw [if_neg (not_not_intro h4)] at h
            by_cases h5 : env.pushOk = true
            · rw [if_neg (not_not_intro h5)] at h
              have hfin := (runFinal_inv env (deriveBranchName env.issueCode env.issueIid env.title)
                _ _ (by exact hiid) rfl).2 res st cur h
              obtain ⟨hs1, hs2, hs3, hs4, hs5, hs6⟩ := hfin
              exact ⟨hs1, hs2, hs3, h1, h2, h3p, h4, h5, hs4, hs5, hs6⟩
            · rw [if_pos h5] at h
              exact absurd h (by simp)
          · rw [if_pos h4] at h
            exact absurd h (by simp)
        · rw [if_pos h3p] at h
          exact absurd h (by simp)
      · rw [if_pos h2] at h
        exact absurd h (by simp)
    · rw [if_pos h1] at h
      exact absurd h (by simp)

theorem rollback_ok_of_helpers (state : WorkflowState) (cfg : Option String)
    (env : RbEnv) (cur : String) (h : rbHelpersOk cfg env) :
    ∃ out, rollback state cfg env cur = .ok out := by
  obtain ⟨hre, h3, h4⟩ := h
  obtain ⟨rm, hb⟩ := rbBlockDeleteRemote_ok state cfg env hre
  obtain ⟨tg, ok3, hc⟩ := rbBlockDeleteLocal_ok state env cur h3
  obtain ⟨ok4, cur4, hd⟩ :=
    rbBlockSwitchBack_ok state env (rbCurBeforeSwitchBack state env cur) h4
  cases hres : rollback state cfg env cur with
  | ok out => exact ⟨out, rfl⟩
  | error e =>
    exfalso
    unfold rollback at hres
    rw [hb] at hres
    dsimp only at hres
    rw [hc] at hres
    dsimp only at hres
    rw [hd] at hres
    dsimp only at hres
    simp at hres

theorem runStash_ok_fields (env : Env) (st2 st3 : WorkflowState)
    (h : runStash env st2 = .ok st3) :
    st3.issue_iid = st2.issue_iid ∧ st3.branch_name = st2.branch_name ∧
    st3.has "branch_created" = st2.has "branch_created" := by
  rcases runStash_cases env st2 st3 h with ⟨_, _, h3⟩ | ⟨_, h3⟩
  · subst h3
    refine ⟨rfl, rfl, ?_⟩
    rw [has_mark_ne _ _ _ (by decide)]
    rfl
  · subst h3
    exact ⟨rfl, rfl, rfl⟩

theorem runStash_ok_of (env : Env) (st2 : WorkflowState)
    (hsp : env.stashPushOk = true) : ∃ st3, runStash env st2 = .ok st3 := by
  cases hres : runStash env st2 with
  | ok st3 => exact ⟨st3, rfl⟩
  | error e =>
    exfalso
    unfold runStash at hres
    by_cases hclean : (env.porcelainOk && env.porcelainEmpty) = true
    · rw [if_neg (by simp [hclean])] at hres
      simp at hres
    · rw [bool_eq_false hclean] at hres
      simp only [Bool.not_false, if_true] at hres
      rw [if_pos hsp] at hres
      simp at hres

theorem runFinal_saveFail (env : Env) (bname : String) (st9 : WorkflowState)
    (cur2 : String) (hpp : env.stashPopOk = true) (hui : env.updateIssueOk = true)
    (hdir : env.issueDirConfigured = true) (hsave : env.saveOk = false) :
    ∃ st10, runFinal env bname st9 cur2 =
      .failure (saveErrMsgOf env.saveErrDetail) st10 cur2 ∧
      st10.issue_iid = st9.issue_iid := by
  cases hpop : runStashPop env st9 with
  | error e =>
    exfalso
    unfold runStashPop at hpop
    by_cases hs : st9.stashed = true
    · rw [if_pos hs, if_pos hpp] at hpop
      simp at hpop
    · rw [if_neg hs] at hpop
      simp at hpop
  | ok st10 =>
    obtain ⟨hiid10, _, _, _, _⟩ := runStashPop_ok _ _ _ hpop
    refine ⟨st10, ?_, hiid10⟩
    unfold runFinal
    rw [hpop]
    dsimp only
    have hnot1 : ¬ ((st10.stashed && !st10.stashed_files.isEmpty) = true ∧
        ¬ env.updateIssueOk = true) := fun hand => hand.2 hui
    rw [if_neg hnot1, if_pos ⟨hdir, by rw [hsave]; simp⟩]

theorem runPhasesTail_saveFail (env : Env) (base : String) (st3 : WorkflowState)
    (cur0 : String) (h10 : env.curBranchOk = true) (h11 : env.checkoutBaseOk = true)
    (h12 : env.pullOk = true) (h13 : env.checkoutNewOk = true)
    (h14 : env.pushOk = true) (hpp : env.stashPopOk = true)
    (hui : env.updateIssueOk = true) (hdir : env.issueDirConfigured = true)
    (hsave : env.saveOk = false) :
    ∃ st10 cur2, runPhasesTail env base st3 cur0 =
      .failure (saveErrMsgOf env.saveErrDetail) st10 cur2 ∧
      st10.issue_iid = st3.issue_iid := by
  have key : ∀ (st9 : WorkflowState) (cur2 : String),
      st9.issue_iid = st3.issue_iid →
      ∃ st10 cur2', runFinal env (deriveBranchName env.issueCode env.issueIid env.title)
        st9 cur2 = .failure (saveErrMsgOf env.saveErrDetail) st10 cur2' ∧
        st10.issue_iid = st3.issue_iid := by
    intro st9 cur2 hiid9
    obtain ⟨st10, hf, hiid⟩ := runFinal_saveFail env _ st9 cur2 hpp hui hdir hsave
    exact ⟨st10, cur2, hf, hiid.trans hiid9⟩
  unfold runPhasesTail
  rw [if_neg (not_not_intro h10), if_neg (not_not_intro h11),
    if_neg (not_not_intro h12), if_neg (not_not_intro h13),
    if_neg (not_not_intro h14)]
  exact key _ _ rfl

theorem runPhases_saveFail (env : Env) (path : String) (baseArg : Option String)
    (h1 : env.jsonFileExists = true) (h2 : env.jsonParseOk = true)
    (h3 : env.hasIssueCode = true) (h4 : env.hasTitle = true)
    (h5 : env.gitRepoOk = true)
    (hre : (env.configuredRemote.getD "") ≠ "" ∨ env.remoteCmdOk0 = true)
    (h6 : env.remoteBaseOk = true) (h7 : env.createIssueOk = true)
    (hsp : env.stashPushOk = true) (h10 : env.curBranchOk = true)
    (h11 : env.checkoutBaseOk = true) (h12 : env.pullOk = true)
    (h13 : env.checkoutNewOk = true) (h14 : env.pushOk = true)
    (hpp : env.stashPopOk = true) (hui : env.updateIssueOk = true)
    (hdir : env.issueDirConfigured = true) (hsave : env.saveOk = false) :
    ∃ stF curF, runPhases env path baseArg =
      .failure (saveErrMsgOf env.saveErrDetail) stF curF ∧
      stF.issue_iid = some env.issueIid := by
  obtain ⟨r, hr⟩ :=
    get_remote_name_ok env.configuredRemote env.remoteCmdOk0 env.remoteStdout0 hre
  obtain ⟨st3, hst3⟩ := runStash_ok_of env (st2W env) hsp
  obtain ⟨hiid3, _, _⟩ := runStash_ok_fields _ _ _ hst3
  obtain ⟨st10, cur2, htail, hiidT⟩ :=
    runPhasesTail_saveFail env (baseOf env baseArg) st3 env.initialBranch
      h10 h11 h12 h13 h14 hpp hui hdir hsave
  refine ⟨st10, cur2, ?_, ?_⟩
  · unfold runPhases
    rw [if_neg (not_not_intro h1), if_neg (not_not_intro h2),
      if_neg (not_not_intro h3), if_neg (not_not_intro h4),
      if_neg (not_not_intro h5), hr]
    dsimp only
    rw [if_neg (not_not_intro h6), if_neg (not_not_intro h7), hst3]
    exact htail
  · rw [hiidT, hiid3]
    rfl

theorem st2W_bc (env : Env) : (st2W env).has "branch_created" = false := rfl

theorem st2W_iid (env : Env) : (st2W env).issue_iid = some env.issueIid := rfl

theorem runPhases_inv (env : Env) (path : String) (baseArg : Option String) :
    (∀ msg st cur, runPhases env path baseArg = .failure msg st cur →
      msg ≠ "" ∧ (st.has "branch_created" = true → st.branch_name.isSome = true) ∧
      (issueCreated env → st.issue_iid = some env.issueIid)) ∧
    (∀ res st cur, runPhases env path baseArg = .success res st cur →
      res.success = true ∧ res.error = none ∧ res.issue_iid = some env.issueIid ∧
      env.jsonFileExists = true ∧ env.jsonParseOk = true ∧ env.hasIssueCode = true ∧
      env.hasTitle = true ∧ env.gitRepoOk = true ∧ env.remoteBaseOk = true ∧
      env.createIssueOk = true ∧ env.curBranchOk = true ∧ env.checkoutBaseOk = true ∧
      env.pullOk = true ∧ env.checkoutNewOk = true ∧ env.pushOk = true ∧
      (env.issueDirConfigured = true → env.saveOk = true)) := by
  constructor
  · intro msg st cur h
    unfold runPhases at h
    by_cases h1 : env.jsonFileExists = true
    · rw [if_neg (not_not_intro h1)] at h
      by_cases h2 : env.jsonParseOk = true
      · rw [if_neg (not_not_intro h2)] at h
        by_cases h3 : env.hasIssueCode = true
        · rw [if_neg (not_not_intro h3)] at h
          by_cases h4 : env.hasTitle = true
          · rw [if_neg (not_not_intro h4)] at h
            by_cases h5 : env.gitRepoOk = true
            · rw [if_neg (not_not_intro h5)] at h
              cases hrem : get_remote_name env.configuredRemote env.remoteCmdOk0
                  env.remoteStdout0 with
              | error e =>
                rw [hrem] at h
                cases h
                refine ⟨get_remote_name_error_ne _ _ _ _ hrem,
                  fun hb => absurd hb (by decide), fun hic => ?_⟩
                obtain ⟨r, hr⟩ :=
                  get_remote_name_ok _ _ env.remoteStdout0 hic.2.2.2.2.2.1
                rw [hrem] at hr
                exact absurd hr (by simp)
              | ok r =>
                rw [hrem] at h
                dsimp only at h
                by_cases h6 : env.remoteBaseOk = true
                · rw [if_neg (not_not_intro h6)] at h
                  by_cases h7 : env.createIssueOk = true
                  · rw [if_neg (not_not_intro h7)] at h
                    cases hstash : runStash env (st2W env) with
                    | error e =>
                      rw [hstash] at h
                      cases h
                      have he := runStash_error _ _ _ hstash
                      refine ⟨by rw [he]; exact cpeMsg_ne _, fun hb => ?_,
                        fun _ => st2W_iid env⟩
                      rw [st2W_bc env] at hb
                      exact absurd hb (by simp)
                    | ok st3 =>
                      rw [hstash] at h
                      obtain ⟨hiid3, hbn3, hbc3⟩ := runStash_ok_fields _ _ _ hstash
                      obtain ⟨ha, hbf, hcf⟩ :=
                        (runPhasesTail_inv env _ st3 _
                          (hiid3.trans (st2W_iid env)) (hbc3.trans (st2W_bc env))).1
                          msg st cur h
                      exact ⟨ha, hbf, fun _ => hcf⟩
                  · rw [if_pos h7] at h
                    cases h
                    exact ⟨apiErrMsg_ne _ _, fun hb => absurd hb (by decide),
                      fun hic => absurd hic.2.2.2.2.2.2.2 h7⟩
                · rw [if_pos h6] at h
                  cases h
                  exact ⟨remoteBaseMsg_ne _ _, fun hb => absurd hb (by decide),
                    fun hic => absurd hic.2.2.2.2.2.2.1 h6⟩
            · rw [if_pos h5] at h
              cases h
              exact ⟨by decide, fun hb => absurd hb (by decide),
                fun hic => absurd hic.2.2.2.2.1 h5⟩
          · rw [if_pos h4] at h
            cases h
            exact ⟨missingFieldMsg_ne _, fun hb => absurd hb (by decide),
              fun hic => absurd hic.2.2.2.1 h4⟩
        · rw [if_pos h3] at h
          cases h
          exact ⟨missingFieldMsg_ne _, fun hb => absurd hb (by decide),
            fun hic => absurd hic.2.2.1 h3⟩
      · rw [if_pos h2] at h
        cases h
        exact ⟨jsonDecodeErrMsg_ne _, fun hb => absurd hb (by decide),
          fun hic => absurd hic.2.1 h2⟩
    · rw [if_pos h1] at h
      cases h
      exact ⟨fileNotFoundMsg_ne _, fun hb => absurd hb (by decide),
        fun hic => absurd hic.1 h1⟩
  · intro res st cur h
    unfold runPhases at h
    by_cases h1 : env.jsonFileExists = true
    · rw [if_neg (not_not_intro h1)] at h
      by_cases h2 : env.jsonParseOk = true
      · rw [if_neg (not_not_intro h2)] at h
        by_cases h3 : env.hasIssueCode = true
        · rw [if_neg (not_not_intro h3)] at h
          by_cases h4 : env.hasTitle = true
          · rw [if_neg (not_not_intro h4)] at h
            by_cases h5 : env.gitRepoOk = true
            · rw [if_neg (not_not_intro h5)] at h
              cases hrem : get_remote_name env.configuredRemote env.remoteCmdOk0
                  env.remoteStdout0 with
              | error e =>
                rw [hrem] at h
                cases h
              | ok r =>
                rw [hrem] at h
                dsimp only at h
                by_cases h6 : env.remoteBaseOk = true
                · rw [if_neg (not_not_intro h6)] at h
                  by_cases h7 : env.createIssueOk = true
                  · rw [if_neg (not_not_intro h7)] at h
                    cases hstash : runStash env (st2W env) with
                    | error e =>
                      rw [hstash] at h
                      cases h
                    | ok st3 =>
                      rw [hstash] at h
                      obtain ⟨hiid3, hbn3, hbc3⟩ := runStash_ok_fields _ _ _ hstash
                      obtain ⟨hs1, hs2, hs3, ht1, ht2, ht3, ht4, ht5, hp1, hp2, hp3⟩ :=
                        (runPhasesTail_inv env _ st3 _
                          (hiid3.trans (st2W_iid env)) (hbc3.trans (st2W_bc env))).2
                          res st cur h
                      exact ⟨hs1, hs2, hs3, h1, h2, h3, h4, h5, h6, h7,
                        ht1, ht2, ht3, ht4, ht5, hp3⟩
                  · rw [if_pos h7] at h
                    cases h
                · rw [if_pos h6] at h
                  cases h
            · rw [if_pos h5] at h
              cases h
          · rw [if_pos h4] at h
            cases h
        · rw [if_pos h3] at h
          cases h
      · rw [if_pos h2] at h
        cases h
    · rw [if_pos h1] at h
      cases h

/-- Claim C2, amended: provided the helper lookups inside `rollback` succeed
(remote name resolvable and both current-branch queries exit cleanly),
`forced_workflow` always returns a `WorkflowResult`, and it never partially
reports success: `success = true` only when every phase through metadata
persistence completed (all external calls of phases 0-8 succeeded and, when
a metadata directory is configured, the save succeeded), and any other
outcome yields `success = false` with a non-empty human-readable `error`
and, whenever the tracking issue had been created, `issue_iid` set.
Without that proviso the handler itself can raise instead of returning a
result: see `forced_workflow_raises_cex`. -/
theorem forced_workflow_spec (env : Env) (path : String) (baseArg : Option String)
    (hrb : rbHelpersOk env.configuredRemote env.rb) :
    ∃ r, forced_workflow env path baseArg = .ok r ∧
      (r.success = true →
        env.jsonFileExists = true ∧ env.jsonParseOk = true ∧
        env.hasIssueCode = true ∧ env.hasTitle = true ∧ env.gitRepoOk = true ∧
        env.remoteBaseOk = true ∧ env.createIssueOk = true ∧
        env.curBranchOk = true ∧ env.checkoutBaseOk = true ∧ env.pullOk = true ∧
        env.checkoutNewOk = true ∧ env.pushOk = true ∧
        (env.issueDirConfigured = true → env.saveOk = true) ∧ r.error = none) ∧
      (r.success = false → ∃ msg, r.error = some msg ∧ msg ≠ "" ∧
        (issueCreated env → r.issue_iid = some env.issueIid)) := by
  cases hph : runPhases env path baseArg with
  | success res st cur =>
    obtain ⟨hs1, hs2, hs3, f1, f2, f3, f4, f5, f6, f7, f8, f9, f10, f11, f12, f13⟩ :=
      (runPhases_inv env path baseArg).2 res st cur hph
    refine ⟨res, ?_, fun _ => ?_, fun hf => ?_⟩
    · unfold forced_workflow
      rw [hph]
    · exact ⟨f1, f2, f3, f4, f5, f6, f7, f8, f9, f10, f11, f12, f13, hs2⟩
    · rw [hs1] at hf
      exact absurd hf (by simp)
  | failure msg st cur =>
    obtain ⟨hm, _, hiid⟩ := (runPhases_inv env path baseArg).1 msg st cur hph
    obtain ⟨out, hrbk⟩ := rollback_ok_of_helpers st env.configuredRemote env.rb cur hrb
    have heq : forced_workflow env path baseArg =
        .ok { success := false, issue_iid := st.issue_iid, error := some msg } := by
      unfold forced_workflow
      rw [hph]
      dsimp only
      rw [hrbk]
    exact ⟨_, heq, fun ht => absurd ht (by simp),
      fun _ => ⟨msg, rfl, hm, fun hic => hiid hic⟩⟩

/-- Counterexample to C2 as stated: with a dirty tree, a failing
`git stash pop` in phase 5, no configured remote and a failing `git remote`
lookup during rollback, `forced_workflow` raises the rollback exception
instead of returning a `WorkflowResult` — the uncaught `Exception` from
`get_remote_name` escapes the `except` handler. -/
theorem forced_workflow_raises_cex :
    forced_workflow envC2 "issue.json" none = .error remoteFailMsg := by
  rfl

/-- Witness for `forced_workflow_spec` on the all-successful environment. -/
theorem forced_workflow_spec_witness :
    ∃ r, forced_workflow envBase "issue.json" none = .ok r ∧
      (r.success = true →
        envBase.jsonFileExists = true ∧ envBase.jsonParseOk = true ∧
        envBase.hasIssueCode = true ∧ envBase.hasTitle = true ∧
        envBase.gitRepoOk = true ∧ envBase.remoteBaseOk = true ∧
        envBase.createIssueOk = true ∧ envBase.curBranchOk = true ∧
        envBase.checkoutBaseOk = true ∧ envBase.pullOk = true ∧
        envBase.checkoutNewOk = true ∧ envBase.pushOk = true ∧
        (envBase.issueDirConfigured = true → envBase.saveOk = true) ∧
        r.error = none) ∧
      (r.success = false → ∃ msg, r.error = some msg ∧ msg ≠ "" ∧
        (issueCreated envBase → r.issue_iid = some envBase.issueIid)) :=
  forced_workflow_spec envBase "issue.json" none ⟨Or.inl (by decide), rfl, rfl⟩

/-- Claim C3, amended: only the forward direction of the claimed iff holds —
at every point where `forced_workflow` hands its state to `rollback`, if
`branch_created` is in the completed steps then `branch_name` is set.  The
converse is false: `branch_name` is assigned (phase 4,
gitlab_workflow.py:1691) before `git checkout -b` runs and `branch_created`
is marked (gitlab_workflow.py:1700), so a checkout failure hands over a
state with a branch name but no `branch_created` step: see
`branch_invariant_cex`. -/
theorem branch_invariant_spec (env : Env) (path : String) (baseArg : Option String)
    (st : WorkflowState) (h : stateHanded env path baseArg = some st)
    (hb : st.has "branch_created" = true) : st.branch_name.isSome = true := by
  unfold stateHanded at h
  cases hph : runPhases env path baseArg with
  | success res st2 cur =>
    rw [hph] at h
    dsimp only at h
    cases h
  | failure msg st2 cur =>
    rw [hph] at h
    dsimp only at h
    injection h with h2
    subst h2
    exact ((runPhases_inv env path baseArg).1 msg _ cur hph).2.1 hb

/-- Counterexample to C3's iff: under `envC3` (`git checkout -b` fails) the
state handed to `rollback` has `branch_name` set while `branch_created` is
not among its completed steps. -/
theorem branch_invariant_cex :
    (stateHanded envC3 "issue.json" none).map
      (fun st => (st.branch_name.isSome, st.has "branch_created")) =
      some (true, false) := by
  decide

/-- Witness for `branch_invariant_spec` at the push-failure scenario, where
`branch_created` is marked in the handed state. -/
theorem branch_invariant_spec_witness : stC3b.branch_name.isSome = true :=
  branch_invariant_spec envC3b "issue.json" none stC3b (by decide) (by decide)

/-- Claim C4, corrected: the code does not downgrade a metadata-persistence
failure.  `save_issue_json` re-raises its write error
(gitlab_workflow.py:890-893) and phase 7 of `forced_workflow` has no
try/except around the call (gitlab_workflow.py:1761-1772), so when every
phase through phase 8 succeeds and only the metadata write fails, the
exception reaches the outer handler: rollback runs and the returned
`WorkflowResult` has `success = false` with the save error recorded —
not `success = true` as claimed. -/
theorem save_failure_spec (env : Env) (path : String) (baseArg : Option String)
    (h1 : env.jsonFileExists = true) (h2 : env.jsonParseOk = true)
    (h3 : env.hasIssueCode = true) (h4 : env.hasTitle = true)
    (h5 : env.gitRepoOk = true)
    (hre : (env.configuredRemote.getD "") ≠ "" ∨ env.remoteCmdOk0 = true)
    (h6 : env.remoteBaseOk = true) (h7 : env.createIssueOk = true)
    (hsp : env.stashPushOk = true) (h10 : env.curBranchOk = true)
    (h11 : env.checkoutBaseOk = true) (h12 : env.pullOk = true)
    (h13 : env.checkoutNewOk = true) (h14 : env.pushOk = true)
    (hpp : env.stashPopOk = true) (hui : env.updateIssueOk = true)
    (hdir : env.issueDirConfigured = true) (hsave : env.saveOk = false)
    (hrb : rbHelpersOk env.configuredRemote env.rb) :
    ∃ r, forced_workflow env path baseArg = .ok r ∧ r.success = false ∧
      r.error = some (saveErrMsgOf env.saveErrDetail) ∧
      r.issue_iid = some env.issueIid := by
  obtain ⟨stF, curF, hph, hiidF⟩ :=
    runPhases_saveFail env path baseArg h1 h2 h3 h4 h5 hre h6 h7 hsp
      h10 h11 h12 h13 h14 hpp hui hdir hsave
  obtain ⟨out, hrbk⟩ :=
    rollback_ok_of_helpers stF env.configuredRemote env.rb curF hrb
  have heq : forced_workflow env path baseArg =
      .ok { success := false, issue_iid := stF.issue_iid,
            error := some (saveErrMsgOf env.saveErrDetail) } := by
    unfold forced_workflow
    rw [hph]
    dsimp only
    rw [hrbk]
  exact ⟨_, heq, rfl, rfl, hiidF⟩

/-- Counterexample to C4 as stated: under `envC4` every phase through
phase 8 succeeds and only the metadata write fails, yet the result has
`success = false` (with the save error), not `success = true`. -/
theorem save_failure_cex :
    forced_workflow envC4 "issue.json" none =
      .ok { success := false, issue_iid := some 7,
            error := some (saveErrMsgOf "Permission denied") } := by
  rfl

/-- Witness for `save_failure_spec` at the concrete save-failure scenario. -/
theorem save_failure_spec_witness :
    ∃ r, forced_workflow envC4 "issue.json" none = .ok r ∧ r.success = false ∧
      r.error = some (saveErrMsgOf envC4.saveErrDetail) ∧
      r.issue_iid = some envC4.issueIid :=
  save_failure_spec envC4 "issue.json" none rfl rfl rfl rfl rfl
    (Or.inl (by decide)) rfl rfl rfl rfl rfl rfl rfl rfl rfl rfl rfl rfl
    ⟨Or.inl (by decide), rfl, rfl⟩
